import Mathlib

/-!
Verification development for the Gemini TTS batch add-on
(batch_handler.py, tts_processor.py).

The development shallowly embeds the batch execution engine:
the audio container encoder (TTSProcessor.convert_to_wav,
parse_audio_mime_type), the synthesis client (generate_audio),
the fallback orchestrator (generate_with_fallback), and the batch
worker loop (TTSWorker.run).  Python strings are modeled as
List Char (wrapped as String at API boundaries), bytes as
List Nat, dictionaries of token counts as a Usage structure,
and exceptions as Except / explicit error sums.  External
collaborators (the transport stream, the record store, the
cancellation flag, mimetypes.guess_extension) are modeled as
environment oracles consumed in program order.
-/

/-! ## Python string helpers -/

/-- Whitespace class of Python str.strip and the regex class backslash-s
(ASCII part; exotic Unicode whitespace is not exercised by the add-on). -/
def pyIsSpace (c : Char) : Bool :=
  c = ' ' || c = '\t' || c = '\n' || c = '\r' || c = Char.ofNat 11 || c = Char.ofNat 12

/-- Python str.strip(): drop whitespace from both ends. -/
def pyStrip (l : List Char) : List Char :=
  ((l.dropWhile pyIsSpace).reverse.dropWhile pyIsSpace).reverse

/-- Python str.lower() (ASCII; the signatures compared in the source are ASCII). -/
def lowerList (l : List Char) : List Char := l.map Char.toLower

/-- Python substring containment: needle in hay. -/
def containsSub (needle : List Char) : List Char → Bool
  | [] => needle.isPrefixOf ([] : List Char)
  | c :: cs => needle.isPrefixOf (c :: cs) || containsSub needle cs

/-- The tail after the first occurrence of sep, if any:
models s.split(sep, 1)[1] together with its IndexError when absent. -/
def afterFirst (sep : Char) : List Char → Option (List Char)
  | [] => none
  | c :: cs => if c = sep then some cs else afterFirst sep cs

/-- Python s.split(";"): semicolon-separated fragments, keeping empties. -/
def splitSemi : List Char → List (List Char)
  | [] => [[]]
  | c :: cs =>
    if c = ';' then [] :: splitSemi cs
    else
      match splitSemi cs with
      | [] => [[c]]
      | r :: rs => (c :: r) :: rs

/-- Value of a run of decimal digits. -/
def decDigitsVal (ds : List Char) : Nat :=
  List.foldl (fun a c => a * 10 + (c.toNat - 48)) 0 ds

/-- Digits-only part of Python int(): all characters must be decimal digits
and there must be at least one (digit-group underscores are not modeled;
no claim exercises them). -/
def intDigits (ds : List Char) : Option Int :=
  if !ds.isEmpty && ds.all Char.isDigit then some (decDigitsVal ds) else none

/-- Python int(str): strip whitespace, optional sign, decimal digits;
none models the ValueError. -/
def pyInt (l : List Char) : Option Int :=
  match pyStrip l with
  | [] => none
  | c :: rest =>
    if c = '+' then intDigits rest
    else if c = '-' then (intDigits rest).map (fun n => -n)
    else intDigits (c :: rest)

/-! ## Worker text cleanup (batch_handler.py lines 250-251) -/

/-- Split at the first close-angle character: characters before it and after it. -/
def findGt : List Char → Option (List Char × List Char)
  | [] => none
  | c :: cs =>
    if c = '>' then some ([], cs)
    else
      match findGt cs with
      | some (b, a) => some (c :: b, a)
      | none => none

/-- Fuel-driven engine of re.sub removing every leftmost non-overlapping
match of an angle-bracket tag (open angle, one or more non-close characters,
close angle).  Fuel at least the length of the list is always sufficient. -/
def stripTagsGo : Nat → List Char → List Char
  | 0, s => s
  | _ + 1, [] => []
  | fuel + 1, c :: rest =>
    if c = '<' then
      match findGt rest with
      | some ([], _) => c :: stripTagsGo fuel rest
      | some (_ :: _, a) => stripTagsGo fuel a
      | none => c :: stripTagsGo fuel rest
    else c :: stripTagsGo fuel rest

/-- Remove angle-bracket tags (batch_handler.py line 250). -/
def stripTags (l : List Char) : List Char := stripTagsGo l.length l

/-- Collapse each maximal whitespace run to a single space
(batch_handler.py line 251): the flag records whether the previous
character was part of a whitespace run. -/
def collapseWSGo : Bool → List Char → List Char
  | _, [] => []
  | prevSpace, c :: rest =>
    if pyIsSpace c then
      if prevSpace then collapseWSGo true rest
      else ' ' :: collapseWSGo true rest
    else c :: collapseWSGo false rest

/-- Collapse whitespace runs to single spaces. -/
def collapseWS (l : List Char) : List Char := collapseWSGo false l

/-- The cleanup at batch_handler.py lines 250-251: strip tags, collapse
whitespace, trim. -/
def cleanText (s : String) : String := ⟨pyStrip (collapseWS (stripTags s.data))⟩

/-! ## Audio container encoder (tts_processor.py lines 143-195) -/

/-- Result of parse_audio_mime_type: Python ints (a negative or huge value can
be parsed from the descriptor; struct.pack validates ranges later). -/
structure AudioParams where
  bits_per_sample : Int
  rate : Int
deriving DecidableEq

/-- One step of the parameter loop of parse_audio_mime_type
(tts_processor.py lines 181-193): strip the fragment, recognize
a rate parameter on the lowered text or an audio slash L prefix on the
original text, ignore unparseable values. -/
def mimeParamStep (p : AudioParams) (raw : List Char) : AudioParams :=
  let param := pyStrip raw
  if List.isPrefixOf "rate=".data (lowerList param) then
    match afterFirst '=' param with
    | some rest =>
      match pyInt rest with
      | some r => { p with rate := r }
      | none => p
    | none => p
  else if List.isPrefixOf "audio/L".data param then
    match afterFirst 'L' param with
    | some rest =>
      match pyInt rest with
      | some b => { p with bits_per_sample := b }
      | none => p
    | none => p
  else p

/-- TTSProcessor.parse_audio_mime_type (tts_processor.py lines 173-195). -/
def parse_audio_mime_type (mime_type : String) : AudioParams :=
  if mime_type = "" then ⟨16, 24000⟩
  else List.foldl mimeParamStep ⟨16, 24000⟩ (splitSemi mime_type.data)

/-- Little-endian bytes of an unsigned 16-bit value. -/
def encU16 (n : Nat) : List Nat := [n % 256, n / 256 % 256]

/-- Little-endian bytes of an unsigned 32-bit value. -/
def encU32 (n : Nat) : List Nat :=
  [n % 256, n / 256 % 256, n / 65536 % 256, n / 16777216 % 256]

/-- struct.pack field H: validates the range, raising struct.error otherwise. -/
def packU16 (n : Int) : Except String (List Nat) :=
  if 0 ≤ n ∧ n ≤ 65535 then .ok (encU16 n.toNat)
  else .error "ushort format requires 0 <= number <= 65535"

/-- struct.pack field I: validates the range, raising struct.error otherwise. -/
def packU32 (n : Int) : Except String (List Nat) :=
  if 0 ≤ n ∧ n ≤ 4294967295 then .ok (encU32 n.toNat)
  else .error "\x27I\x27 format requires 0 <= number <= 4294967295"

/-- TTSProcessor.convert_to_wav (tts_processor.py lines 143-171):
a 44-byte RIFF/WAVE header followed by the raw samples.  The error case
models struct.error escaping struct.pack; fields are validated in pack
order. -/
def convert_to_wav (audio_data : List Nat) (mime_type : String) :
    Except String (List Nat) := do
  let p := parse_audio_mime_type mime_type
  let bits_per_sample := p.bits_per_sample
  let sample_rate := p.rate
  let num_channels : Int := 1
  let data_size : Int := (audio_data.length : Int)
  let bytes_per_sample := Int.fdiv bits_per_sample 8
  let block_align := num_channels * bytes_per_sample
  let byte_rate := sample_rate * block_align
  let chunk_size := 36 + data_size
  let bChunk ← packU32 chunk_size
  let bFmtLen ← packU32 16
  let bTag ← packU16 1
  let bChan ← packU16 num_channels
  let bRate ← packU32 sample_rate
  let bByteRate ← packU32 byte_rate
  let bAlign ← packU16 block_align
  let bBits ← packU16 bits_per_sample
  let bSize ← packU32 data_size
  return [82, 73, 70, 70] ++ bChunk ++ [87, 65, 86, 69] ++ [102, 109, 116, 32]
    ++ bFmtLen ++ bTag ++ bChan ++ bRate ++ bByteRate ++ bAlign ++ bBits
    ++ [100, 97, 116, 97] ++ bSize ++ audio_data

/-- Python expression mime_type or default, for an optional string variable
(None and the empty string are falsy). -/
def pyOrStr (s : Option String) (d : String) : String :=
  match s with
  | some v => if v = "" then d else v
  | none => d

/-- The encoder step of generate_audio (tts_processor.py lines 96-102):
when the recorded descriptor has a guessable extension containing wav,
the payload is returned unchanged, otherwise it is wrapped by
convert_to_wav keyed by the descriptor (defaulting to audio/wav).
mimetypes.guess_extension is an external table, passed in as a function. -/
def encodeAudio (guessExt : String → Option String) (audio_data : List Nat)
    (mime_type : Option String) : Except String (List Nat) :=
  let ext : Option String :=
    match mime_type with
    | some m => if m = "" then none else guessExt m
    | none => none
  match ext with
  | some e =>
    if containsSub "wav".data (lowerList e.data) then .ok audio_data
    else convert_to_wav audio_data (pyOrStr mime_type "audio/wav")
  | none => convert_to_wav audio_data (pyOrStr mime_type "audio/wav")

/-- Little-endian read-back of 16 bits at an offset (header inspection). -/
def readU16 (l : List Nat) (i : Nat) : Nat :=
  l.getD i 0 + 256 * l.getD (i + 1) 0

/-- Little-endian read-back of 32 bits at an offset (header inspection). -/
def readU32 (l : List Nat) (i : Nat) : Nat :=
  l.getD i 0 + 256 * l.getD (i + 1) 0 + 65536 * l.getD (i + 2) 0
    + 16777216 * l.getD (i + 3) 0

/-- Boolean success test for an encoder result. -/
def isOkBytes : Except String (List Nat) → Bool
  | .ok _ => true
  | .error _ => false

/-! ## Synthesis client (tts_processor.py lines 29-141) -/

/-- Token usage dictionary of generate_audio. -/
structure Usage where
  input_tokens : Nat
  output_tokens : Nat
deriving DecidableEq

/-- The two exception kinds that can escape generate_audio:
RateLimitError and the generic re-raise at line 139. -/
inductive SynthErr where
  | rateLimit (msg : String)
  | generic (msg : String)
deriving DecidableEq

/-- Message carried by an escaping exception. -/
def SynthErr.msg : SynthErr → String
  | .rateLimit m => m
  | .generic m => m

/-- One streamed chunk: optional usage metadata (prompt and candidate
token counts, with the or-zero coalescing of lines 82-83 already applied)
and an optional inline payload (bytes plus the declared mime type of the
part, itself possibly absent). -/
structure Chunk where
  usage : Option (Nat × Nat)
  data : Option (List Nat × Option String)
deriving DecidableEq

/-- Behavior of one transport interaction: the chunks the stream yields,
then either normal exhaustion (err = none) or an exception carrying a
message (err = some msg). -/
structure AttemptOutcome where
  chunks : List Chunk
  err : Option String
deriving DecidableEq

/-- Environment of the synthesis client: the transport (indexed by a
global interaction counter), the cancellation flag (indexed by the
number of reads so far), and the mimetypes.guess_extension table. -/
structure PEnv where
  attempts : Nat → AttemptOutcome
  cancelAt : Nat → Bool
  guessExt : String → Option String

/-- Counters threaded through the client: transport interactions made and
cancellation-flag reads made. -/
structure PState where
  attemptCalls : Nat
  cancelChecks : Nat
deriving DecidableEq

/-- One read of the cancellation flag. -/
def readCancelP (env : PEnv) (st : PState) : Bool × PState :=
  (env.cancelAt st.cancelChecks, { st with cancelChecks := st.cancelChecks + 1 })

/-- The per-chunk accumulation of lines 81-94: latest usage metadata wins,
non-empty payloads append, the first descriptor seen with a truthy value is
recorded. -/
def applyChunk (usage : Usage) (datas : List (List Nat)) (mime : Option String)
    (ch : Chunk) : Usage × List (List Nat) × Option String :=
  let usage : Usage := match ch.usage with
    | some (i, o) => ⟨i, o⟩
    | none => usage
  match ch.data with
  | some (d, m) =>
    if d.isEmpty then (usage, datas, mime)
    else (usage, datas ++ [d],
      if (match mime with | none => true | some s => s = "") then m else mime)
  | none => (usage, datas, mime)

/-- The stream consumption loop (tts_processor.py lines 73-94): per chunk,
check cancellation (inr means the early return of line 79), then fold the
chunk into the accumulators. -/
def streamChunks (env : PEnv) :
    PState → Usage → List (List Nat) → Option String → List Chunk →
    (PState × Usage × List (List Nat) × Option String) ⊕ (PState × Usage)
  | st, usage, datas, mime, [] => .inl (st, usage, datas, mime)
  | st, usage, datas, mime, ch :: rest =>
    -- the per-chunk flag read of line 78 bumps the read cursor either way;
    -- the early return of line 79 carries the usage seen before this chunk
    if env.cancelAt st.cancelChecks then
      .inr ({ st with cancelChecks := st.cancelChecks + 1 }, usage)
    else
      let st : PState := { st with cancelChecks := st.cancelChecks + 1 }
      let a := applyChunk usage datas mime ch
      streamChunks env st a.1 a.2.1 a.2.2 rest

/-- The interruptible backoff sleep (tts_processor.py lines 130-133):
one flag read per tenth-of-a-second tick; true means the early return
of line 132 fired. -/
def waitLoopP (env : PEnv) : Nat → PState → Bool × PState
  | 0, st => (false, st)
  | t + 1, st =>
    let (c, st) := readCancelP env st
    if c then (true, st) else waitLoopP env t st

/-- Classification outcome of the except clause (lines 114-139). -/
inductive ErrStep where
  | rate
  | retryAfterSleep
  | resolveEmpty
  | generic
deriving DecidableEq

/-- Failure classification on the lowered message (lines 114-139):
rate-limit signatures are re-raised; transient signatures (or the
empty-response condition) retry when this is not the last attempt;
a leftover empty-response resolves quietly; everything else re-raises
generically. -/
def classifyErr (msg : String) (isEmpty : Bool) (attempt max_retries : Nat) : ErrStep :=
  let low := lowerList msg.data
  if containsSub "429".data low || containsSub "resource_exhausted".data low then .rate
  else if (containsSub "500".data low || containsSub "503".data low
      || containsSub "timeout".data low || isEmpty)
      && decide (attempt < max_retries - 1) then .retryAfterSleep
  else if isEmpty then .resolveEmpty
  else .generic

/-- The except clause of one attempt (tts_processor.py lines 109-139):
cancellation check, classification, and for the retry case the
interruptible backoff of retry_delay times attempt-plus-one seconds in
tenth-of-a-second ticks.  inl is a final answer of generate_audio;
inr is the continue of line 134 (proceed to the next attempt). -/
def attemptErrStep (env : PEnv) (retry_delay max_retries attempt : Nat)
    (st : PState) (usage : Usage) (msg : String) (isEmpty : Bool) :
    (PState × Except SynthErr (Option (List Nat) × Usage)) ⊕ PState :=
  -- the flag read of line 111 bumps the read cursor either way
  if env.cancelAt st.cancelChecks then
    .inl ({ st with cancelChecks := st.cancelChecks + 1 }, .ok (none, usage))
  else
    let st : PState := { st with cancelChecks := st.cancelChecks + 1 }
    match classifyErr msg isEmpty attempt max_retries with
    | .rate => .inl (st, .error (.rateLimit msg))
    | .retryAfterSleep =>
      match waitLoopP env (retry_delay * (attempt + 1) * 10) st with
      | (true, st) => .inl (st, .ok (none, usage))
      | (false, st) => .inr st
    | .resolveEmpty => .inl (st, .ok (none, usage))
    | .generic => .inl (st, .error (.generic msg))

/-- The attempt loop of generate_audio (tts_processor.py lines 64-141),
counting down the remaining attempts.  Each attempt: cancellation check,
one transport interaction, stream consumption, then either the success
paths of lines 96-107 or the except clause.  Exhaustion of the loop is
the fall-through return of line 141. -/
def genAudioLoop (env : PEnv) (retry_delay : Nat) (retry_on_empty : Bool)
    (max_retries : Nat) :
    Nat → Nat → PState → Usage → PState × Except SynthErr (Option (List Nat) × Usage)
  | 0, _, st, usage => (st, .ok (none, usage))
  | left + 1, attempt, st, usage =>
    -- the per-attempt flag read of line 65 bumps the read cursor either way
    if env.cancelAt st.cancelChecks then
      ({ st with cancelChecks := st.cancelChecks + 1 }, .ok (none, usage))
    else
      let st : PState := { st with cancelChecks := st.cancelChecks + 1 }
      let oc := env.attempts st.attemptCalls
      let st : PState := { st with attemptCalls := st.attemptCalls + 1 }
      match streamChunks env st usage [] none oc.chunks with
      | .inr (st, usage) => (st, .ok (none, usage))
      | .inl (st, usage, datas, mime) =>
        match oc.err with
        | some msg =>
          match attemptErrStep env retry_delay max_retries attempt st usage msg false with
          | .inl r => r
          | .inr st => genAudioLoop env retry_delay retry_on_empty max_retries left (attempt + 1) st usage
        | none =>
          if datas.isEmpty then
            if retry_on_empty then
              match attemptErrStep env retry_delay max_retries attempt st usage
                  "Received empty audio stream from API." true with
              | .inl r => r
              | .inr st => genAudioLoop env retry_delay retry_on_empty max_retries left (attempt + 1) st usage
            else (st, .ok (none, usage))
          else
            let audio_data := datas.flatten
            match encodeAudio env.guessExt audio_data mime with
            | .ok final => (st, .ok (some final, usage))
            | .error m =>
              match attemptErrStep env retry_delay max_retries attempt st usage m false with
              | .inl r => r
              | .inr st => genAudioLoop env retry_delay retry_on_empty max_retries left (attempt + 1) st usage

/-- TTSProcessor.generate_audio (tts_processor.py lines 29-141).  The model
name only selects transport behavior, which the attempts oracle already
encodes; empty or whitespace-only text short-circuits with zero usage. -/
def generate_audio (env : PEnv) (st : PState) (text : String) (_model : String)
    (max_retries retry_delay : Nat) (retry_on_empty : Bool) :
    PState × Except SynthErr (Option (List Nat) × Usage) :=
  if text = "" || (pyStrip text.data).isEmpty then (st, .ok (none, ⟨0, 0⟩))
  else genAudioLoop env retry_delay retry_on_empty max_retries max_retries 0 st ⟨0, 0⟩

/-! ## Fallback orchestrator (tts_processor.py lines 197-228) -/

/-- TTSProcessor.generate_with_fallback (tts_processor.py lines 197-228).
Returns audio-or-none, resolved model name or error text, and the usage
dictionary (none models the empty dictionary of the error paths).  The
one-second pre-fallback sleep is skipped when the flag reads true; either
way it consumes exactly one flag read (line 215). -/
def generate_with_fallback (env : PEnv) (st : PState) (text : String)
    (primary_model fallback_model : String) (enable_fallback : Bool)
    (max_retries retry_delay : Nat) (retry_on_empty : Bool) :
    PState × (Option (List Nat) × String × Option Usage) :=
  match generate_audio env st text primary_model max_retries retry_delay retry_on_empty with
  | (st1, .ok (some audio, stats)) =>
    if audio.isEmpty then (st1, (none, "No audio generated", some stats))
    else (st1, (some audio, primary_model, some stats))
  | (st1, .ok (none, stats)) => (st1, (none, "No audio generated", some stats))
  | (st1, .error (.rateLimit msg)) =>
    if enable_fallback then
      let st2 : PState := { st1 with cancelChecks := st1.cancelChecks + 1 }
      match generate_audio env st2 text fallback_model max_retries retry_delay retry_on_empty with
      | (st3, .ok (some audio, stats)) =>
        if audio.isEmpty then (st3, (none, "Fallback model: No audio generated", some stats))
        else (st3, (some audio, fallback_model, some stats))
      | (st3, .ok (none, stats)) => (st3, (none, "Fallback model: No audio generated", some stats))
      | (st3, .error e) => (st3, (none, e.msg, none))
    else (st1, (none, msg, none))
  | (st1, .error (.generic msg)) => (st1, (none, msg, none))

/-! ## Batch worker (batch_handler.py, TTSWorker.run, lines 186-350) -/

/-- A record: its type name and its named fields. -/
structure Note where
  typeName : String
  fields : List (String × String)
deriving DecidableEq

/-- Python field-name membership test (src in note). -/
def Note.hasField (n : Note) (f : String) : Bool :=
  n.fields.any (fun kv => kv.1 == f)

/-- Python field read (note[src]); only evaluated after a membership test. -/
def Note.getField (n : Note) (f : String) : String :=
  match n.fields.find? (fun kv => kv.1 == f) with
  | some kv => kv.2
  | none => ""

/-- One entry of note_type_configs. -/
structure NTConfig where
  note_type : String
  source_field : String
  target_field : String
  enabled : Bool
deriving DecidableEq

/-- The worker configuration slice the loop reads.  request_wait is a float
in the source; only its positivity test (line 259) and its tick count
int(request_wait times ten) (line 260) are observable, so those are the
fields kept.  primary_model, fallback_model, enable_fallback,
retry_attempts, retry_delay, retry_on_empty and tag_on_success are
forwarded verbatim to the orchestrator and save collaborators, which the
environment oracles encode. -/
structure WConfig where
  note_type_configs : List NTConfig
  skip_existing_audio : Bool
  request_wait_pos : Bool
  request_wait_ticks : Nat
  verbose_logging : Bool
deriving DecidableEq

/-- The per-type mapping list built in TTSWorker.__init__ (lines 102-105):
the enabled configs of the given type, in configuration order.  An empty
list models absence from the defaultdict (the membership test of
line 223), since entries are only created by appending. -/
def noteTypeMapOf (cfg : WConfig) (tn : String) : List NTConfig :=
  cfg.note_type_configs.filter (fun c => c.enabled && c.note_type == tn)

/-- Outcome of one marshalled save_result call (lines 300-312): the note
write succeeded; the note was gone (the inner except of line 309); or the
marshalled call itself raised (timeout or another error, line 319). -/
inductive SaveOutcome where
  | saved
  | noteDeleted
  | raised (msg : String)
deriving DecidableEq

/-- Result triple of one generate_with_fallback call as the worker sees it:
audio-or-none, model-name-or-error text, and the usage dictionary
(none models the falsy empty dictionary). -/
structure OrchResult where
  audio : Option (List Nat)
  info : String
  stats : Option Usage
deriving DecidableEq

/-- Worker environment: the record store read, the orchestrator collaborator
(result of the k-th call, and how many cancellation reads it performs
internally through check_cancel), the save collaborator, and the
cancellation flag indexed by reads made. -/
structure WEnv where
  getNote : Nat → Option Note
  orch : Nat → OrchResult
  orchChecks : Nat → Nat
  save : Nat → SaveOutcome
  cancelAt : Nat → Bool

/-- Mutable state of TTSWorker.run: the operation counters of lines 187-190,
the session totals of lines 107-109, and oracle cursors. -/
structure WState where
  success_ops : Nat
  failed_ops : Nat
  skipped_ops : Nat
  consecutive_errors : Nat
  total_input_tokens : Nat
  total_output_tokens : Nat
  total_requests : Nat
  orchCalls : Nat
  saveCalls : Nat
  cancelChecks : Nat
deriving DecidableEq

/-- The zeroed state at the top of run. -/
def initWState : WState := ⟨0, 0, 0, 0, 0, 0, 0, 0, 0, 0⟩

/-- What the failure log line displays (line 326-333): the raw orchestrator
message passed through _format_error, or the unknown-error fallback.  The
rendered text of _format_error depends on float formatting and is not
modeled; the constructor records which message was formatted. -/
inductive DisplayErr where
  | formatted (raw : String)
  | unknown
deriving DecidableEq

/-- The log lines the worker can emit, with their interpolated values. -/
inductive LogMsg where
  | cancelled
  | abortErrors
  | skippedDeleted (nid : Nat)
  | fieldMissing (nid : Nat) (src : String)
  | skippedAudioExists (nid : Nat) (src : String)
  | skippedEmpty (nid : Nat) (src : String)
  | successNote (nid : Nat) (src : String)
  | saveError (nid : Nat) (src : String) (msg : String)
  | saveFutureError (nid : Nat) (msg : String)
  | apiError (nid : Nat) (src : String) (err : DisplayErr)
deriving DecidableEq

/-- Events the worker emits: the three signals plus the terminal summary
(which carries the final counters and session totals). -/
inductive WEvent where
  | progress (idx : Nat) (status : String) (success failed skipped : Nat)
  | usage (input_tokens output_tokens : Nat)
  | log (m : LogMsg)
  | finished (success failed skipped requests input_tokens output_tokens : Nat)
deriving DecidableEq

/-- Instrumentation: the counter values at the moment an event is emitted,
recorded next to every event so that emission-versus-mutation order is
observable in the trace. -/
structure Snap where
  success : Nat
  failed : Nat
  skipped : Nat
  input_tokens : Nat
  output_tokens : Nat
deriving DecidableEq

/-- Emit an event, snapshotting the counters at emission time. -/
def emitEv (st : WState) (e : WEvent) : WEvent × Snap :=
  (e, ⟨st.success_ops, st.failed_ops, st.skipped_ops,
       st.total_input_tokens, st.total_output_tokens⟩)

/-- One read of is_cancelled from the worker loop. -/
def readCancelW (env : WEnv) (st : WState) : Bool × WState :=
  (env.cancelAt st.cancelChecks, { st with cancelChecks := st.cancelChecks + 1 })

/-- The inter-request delay loop (lines 260-262): one flag read per tick,
stopping the wait early when the flag is set (the break only leaves the
wait loop). -/
def waitTicksW (env : WEnv) : Nat → WState → WState
  | 0, st => st
  | t + 1, st =>
    let (c, st) := readCancelW env st
    if c then st else waitTicksW env t st

/-- The skip-existing-audio test of lines 241-242: flag set, target field
present, and the sound-tag substring present in it. -/
def skipExistingHit (cfg : WConfig) (note : Note) (m : NTConfig) : Bool :=
  cfg.skip_existing_audio && note.hasField m.target_field
    && containsSub "[sound:".data (note.getField m.target_field).data

/-- Python bytes truthiness for an optional payload. -/
def pyTruthyBytes : Option (List Nat) → Bool
  | none => false
  | some b => !b.isEmpty

/-- Processing of one field mapping (batch_handler.py lines 231-335),
entered after the top-of-loop cancellation test.  Returns the new state,
the emitted events in order, and whether the mapping loop was broken
(only the post-wait cancellation test of line 264 breaks here).  The
generate_with_fallback call is the orchestrator oracle; its internal
cancellation reads advance the read cursor.  The except branch of
line 293 is unreachable because the orchestrator never raises, so it is
not modeled. -/
def processMapping (env : WEnv) (cfg : WConfig) (idx nid : Nat) (note : Note)
    (m : NTConfig) (st : WState) : WState × List (WEvent × Snap) × Bool :=
  let src := m.source_field
  if !note.hasField src then
    let ev := emitEv st (.log (.fieldMissing nid src))
    ({ st with failed_ops := st.failed_ops + 1 }, [ev], false)
  else
    let text := note.getField src
    if skipExistingHit cfg note m then
      let st := { st with skipped_ops := st.skipped_ops + 1 }
      let evs := (if cfg.verbose_logging then [emitEv st (.log (.skippedAudioExists nid src))] else [])
        ++ [emitEv st (.progress (idx + 1) "Skipping..." st.success_ops st.failed_ops st.skipped_ops)]
      (st, evs, false)
    else if cleanText text = "" then
      let evs := if cfg.verbose_logging then [emitEv st (.log (.skippedEmpty nid src))] else []
      ({ st with skipped_ops := st.skipped_ops + 1 }, evs, false)
    else
      let st := if cfg.request_wait_pos then waitTicksW env cfg.request_wait_ticks st else st
      let (c, st) := readCancelW env st
      if c then (st, [], true)
      else
        let evG := emitEv st (.progress (idx + 1) ("Generating " ++ src ++ "...")
          st.success_ops st.failed_ops st.skipped_ops)
        let r := env.orch st.orchCalls
        let st := { st with orchCalls := st.orchCalls + 1,
                            cancelChecks := st.cancelChecks + env.orchChecks st.orchCalls }
        let su :=
          match r.stats with
          | some u =>
            let st := { st with total_input_tokens := st.total_input_tokens + u.input_tokens,
                                total_output_tokens := st.total_output_tokens + u.output_tokens }
            let st := if pyTruthyBytes r.audio then
                { st with total_requests := st.total_requests + 1 } else st
            (st, [emitEv st (.usage st.total_input_tokens st.total_output_tokens)])
          | none => (st, ([] : List (WEvent × Snap)))
        let st := su.1
        let usageEvs := su.2
        if pyTruthyBytes r.audio then
          let st := { st with consecutive_errors := 0 }
          let so := env.save st.saveCalls
          let st := { st with saveCalls := st.saveCalls + 1 }
          match so with
          | .saved =>
            let st := { st with success_ops := st.success_ops + 1 }
            (st, [evG] ++ usageEvs ++ [emitEv st (.log (.successNote nid src))], false)
          | .noteDeleted =>
            let st := { st with failed_ops := st.failed_ops + 1 }
            (st, [evG] ++ usageEvs ++ [emitEv st (.log (.saveError nid src "Note deleted"))], false)
          | .raised msg =>
            let st := { st with failed_ops := st.failed_ops + 1 }
            (st, [evG] ++ usageEvs ++ [emitEv st (.log (.saveFutureError nid msg))], false)
        else
          let st := { st with consecutive_errors := st.consecutive_errors + 1,
                              failed_ops := st.failed_ops + 1 }
          let disp := if r.info = "" then DisplayErr.unknown else DisplayErr.formatted r.info
          (st, [evG] ++ usageEvs ++ [emitEv st (.log (.apiError nid src disp))], false)

/-- The mapping loop over the enabled configs of a record (lines 228-335):
one cancellation test at the top of each iteration (line 229), then the
mapping body; a break propagates out of the loop but the record-level
progress emission still follows. -/
def runMappings (env : WEnv) (cfg : WConfig) (idx nid : Nat) (note : Note) :
    List NTConfig → WState → WState × List (WEvent × Snap) × Bool
  | [], st => (st, [], false)
  | m :: rest, st =>
    let (c, st) := readCancelW env st
    if c then (st, [], true)
    else
      let r := processMapping env cfg idx nid note m st
      if r.2.2 then (r.1, r.2.1, true)
      else
        let r2 := runMappings env cfg idx nid note rest r.1
        (r2.1, r.2.1 ++ r2.2.1, r2.2.2)

/-- The record loop of TTSWorker.run (lines 199-337): cancellation test,
consecutive-error threshold test (both only at the top of the record
loop), record read, silent skip of unmapped types, the mapping loop, and
the per-record progress emission of line 337 (which continue at
lines 221 and 224 bypasses). -/
def runNotes (env : WEnv) (cfg : WConfig) :
    List Nat → Nat → WState → WState × List (WEvent × Snap)
  | [], _, st => (st, [])
  | nid :: rest, idx, st =>
    let (c, st) := readCancelW env st
    if c then (st, [emitEv st (.log .cancelled)])
    else if 5 ≤ st.consecutive_errors then (st, [emitEv st (.log .abortErrors)])
    else
      match env.getNote nid with
      | none =>
        let evs := if cfg.verbose_logging then [emitEv st (.log (.skippedDeleted nid))] else []
        let r := runNotes env cfg rest (idx + 1) st
        (r.1, evs ++ r.2)
      | some note =>
        let maps := noteTypeMapOf cfg note.typeName
        if maps.isEmpty then runNotes env cfg rest (idx + 1) st
        else
          let r1 := runMappings env cfg idx nid note maps st
          let st1 := r1.1
          let ev := emitEv st1 (.progress (idx + 1) "Waiting..."
            st1.success_ops st1.failed_ops st1.skipped_ops)
          let r2 := runNotes env cfg rest (idx + 1) st1
          (r2.1, r1.2.1 ++ [ev] ++ r2.2)

/-- TTSWorker.run (lines 186-350): the record loop from the zeroed state,
then the terminal summary emission of line 350. -/
def runWorker (env : WEnv) (cfg : WConfig) (note_ids : List Nat) :
    WState × List (WEvent × Snap) :=
  let r := runNotes env cfg note_ids 0 initWState
  let st := r.1
  (st, r.2 ++ [emitEv st (.finished st.success_ops st.failed_ops st.skipped_ops
      st.total_requests st.total_input_tokens st.total_output_tokens)])

/-- Texts consisting only of angle-bracket markup and whitespace: empty,
a whitespace character followed by more, or a complete tag (open angle,
a non-empty run of non-close characters, close angle) followed by more. -/
inductive MarkupWS : List Char → Prop
  | nil : MarkupWS []
  | ws {c : Char} {rest : List Char} :
      pyIsSpace c = true → MarkupWS rest → MarkupWS (c :: rest)
  | tag {inner rest : List Char} :
      inner ≠ [] → (∀ c ∈ inner, c ≠ '>') → MarkupWS rest →
      MarkupWS ('<' :: inner ++ '>' :: rest)

/-- The exact byte string convert_to_wav produces for descriptor
audio/L16 rate 24000 on a payload of length n (proof-side name for the
header-plus-samples shape). -/
def wavChain (n : Nat) (tail : List Nat) : List Nat :=
  [82, 73, 70, 70] ++ encU32 (36 + n) ++ [87, 65, 86, 69]
    ++ [102, 109, 116, 32] ++ [16, 0, 0, 0] ++ [1, 0] ++ [1, 0]
    ++ [192, 93, 0, 0] ++ [128, 187, 0, 0] ++ [2, 0] ++ [16, 0]
    ++ [100, 97, 116, 97] ++ encU32 n ++ tail

/-- An event paired with its emission-time counter snapshot is fresh when
every counter value the payload carries equals the snapshot value, so the
consumer sees no stale count at the moment of emission.  Log events carry
no counts and are vacuously fresh. -/
def eventFresh : WEvent × Snap → Prop
  | (WEvent.progress _ _ s f k, sn) => s = sn.success ∧ f = sn.failed ∧ k = sn.skipped
  | (WEvent.usage i o, sn) => i = sn.input_tokens ∧ o = sn.output_tokens
  | (WEvent.finished s f k _ i o, sn) =>
    s = sn.success ∧ f = sn.failed ∧ k = sn.skipped ∧ i = sn.input_tokens ∧ o = sn.output_tokens
  | (WEvent.log _, _) => True

/-- The tail of processMapping once the source field is present, no skip
fires, and the cleaned text is non-empty: the state after the
inter-request wait and the passed post-wait cancellation test, then the
progress emission, the orchestrator call, usage merging and the
save-or-failure paths (batch_handler.py lines 259-335). -/
def mappingCallResult (env : WEnv) (cfg : WConfig) (idx nid : Nat) (m : NTConfig)
    (st0 : WState) : WState × List (WEvent × Snap) × Bool :=
  let src := m.source_field
  let st : WState := { st0 with cancelChecks :=
    st0.cancelChecks + (if cfg.request_wait_pos then cfg.request_wait_ticks else 0) + 1 }
  let evG := emitEv st (.progress (idx + 1) ("Generating " ++ src ++ "...")
    st.success_ops st.failed_ops st.skipped_ops)
  let r := env.orch st.orchCalls
  let st := { st with orchCalls := st.orchCalls + 1,
                      cancelChecks := st.cancelChecks + env.orchChecks st.orchCalls }
  let su :=
    match r.stats with
    | some u =>
      let st := { st with total_input_tokens := st.total_input_tokens + u.input_tokens,
                          total_output_tokens := st.total_output_tokens + u.output_tokens }
      let st := if pyTruthyBytes r.audio then
          { st with total_requests := st.total_requests + 1 } else st
      (st, [emitEv st (.usage st.total_input_tokens st.total_output_tokens)])
    | none => (st, ([] : List (WEvent × Snap)))
  let st := su.1
  let usageEvs := su.2
  if pyTruthyBytes r.audio then
    let st := { st with consecutive_errors := 0 }
    let so := env.save st.saveCalls
    let st := { st with saveCalls := st.saveCalls + 1 }
    match so with
    | .saved =>
      let st := { st with success_ops := st.success_ops + 1 }
      (st, [evG] ++ usageEvs ++ [emitEv st (.log (.successNote nid src))], false)
    | .noteDeleted =>
      let st := { st with failed_ops := st.failed_ops + 1 }
      (st, [evG] ++ usageEvs ++ [emitEv st (.log (.saveError nid src "Note deleted"))], false)
    | .raised msg =>
      let st := { st with failed_ops := st.failed_ops + 1 }
      (st, [evG] ++ usageEvs ++ [emitEv st (.log (.saveFutureError nid msg))], false)
  else
    let st := { st with consecutive_errors := st.consecutive_errors + 1,
                        failed_ops := st.failed_ops + 1 }
    let disp := if r.info = "" then DisplayErr.unknown else DisplayErr.formatted r.info
    (st, [evG] ++ usageEvs ++ [emitEv st (.log (.apiError nid src disp))], false)

theorem dropWhile_all_false {p : Char → Bool} :
    ∀ {l : List Char}, (∀ c ∈ l, p c = false) → l.dropWhile p = l
  | [], _ => rfl
  | c :: cs, h => by
    simp [List.dropWhile_cons, h c (by simp)]

theorem pyStrip_no_space {l : List Char} (h : ∀ c ∈ l, pyIsSpace c = false) :
    pyStrip l = l := by
  unfold pyStrip
  rw [dropWhile_all_false h]
  rw [dropWhile_all_false (fun c hc => h c (List.mem_reverse.mp hc))]
  exact List.reverse_reverse l

theorem digit_not_space {c : Char} (h : c.isDigit = true) : pyIsSpace c = false := by
  by_contra hne
  rw [Bool.not_eq_false] at hne
  simp only [pyIsSpace, Bool.or_eq_true, decide_eq_true_eq] at hne
  rcases hne with ((((h1 | h1) | h1) | h1) | h1) | h1 <;> subst h1 <;>
    exact absurd h (by decide)

theorem digit_ne {c d : Char} (h : c.isDigit = true) (hd : d.isDigit = false) : c ≠ d := by
  intro he
  subst he
  simp [h] at hd

theorem isPrefixOf_append_self : ∀ (a b : List Char), List.isPrefixOf a (a ++ b) = true := by
  intro a b
  induction a with
  | nil => simp [List.isPrefixOf]
  | cons c cs ih => simp [List.isPrefixOf, ih]

theorem splitSemi_no_semi : ∀ {a : List Char}, ';' ∉ a → splitSemi a = [a]
  | [], _ => rfl
  | c :: cs, h => by
    have hc : ¬ c = ';' := fun he => h (he ▸ List.mem_cons_self c cs)
    have ih := splitSemi_no_semi (fun hm => h (List.mem_cons_of_mem c hm))
    simp [splitSemi, hc, ih]

theorem splitSemi_append_cons : ∀ {a : List Char} (b : List Char), ';' ∉ a →
    splitSemi (a ++ ';' :: b) = a :: splitSemi b
  | [], b, _ => by simp [splitSemi]
  | c :: cs, b, h => by
    have hc : ¬ c = ';' := fun he => h (he ▸ List.mem_cons_self c cs)
    have ih := splitSemi_append_cons (a := cs) b (fun hm => h (List.mem_cons_of_mem c hm))
    simp [splitSemi, hc, ih]

theorem pyInt_digits {ds : List Char} (hne : ds ≠ [])
    (hd : ∀ c ∈ ds, c.isDigit = true) :
    pyInt ds = some ((decDigitsVal ds : Int)) := by
  have hstrip : pyStrip ds = ds :=
    pyStrip_no_space (fun c hc => digit_not_space (hd c hc))
  unfold pyInt
  rw [hstrip]
  cases ds with
  | nil => exact absurd rfl hne
  | cons c rest =>
    have hc := hd c (by simp)
    have hplus : ¬ c = '+' := digit_ne hc (by decide)
    have hminus : ¬ c = '-' := digit_ne hc (by decide)
    simp only [hplus, hminus, if_false]
    unfold intDigits
    have hall : (c :: rest).all Char.isDigit = true := List.all_eq_true.mpr hd
    simp [hall]

theorem mimeParamStep_rate (p : AudioParams) {ds : List Char} (hne : ds ≠ [])
    (hd : ∀ c ∈ ds, c.isDigit = true) :
    mimeParamStep p ("rate=".data ++ ds) = { p with rate := (decDigitsVal ds : Int) } := by
  have hnospace : ∀ c ∈ "rate=".data ++ ds, pyIsSpace c = false := by
    intro c hc
    rcases List.mem_append.mp hc with h1 | h1
    · have hr : "rate=".data = ['r', 'a', 't', 'e', '='] := rfl
      rw [hr] at h1
      fin_cases h1 <;> decide
    · exact digit_not_space (hd c h1)
  have hlow : lowerList ("rate=".data ++ ds) = "rate=".data ++ lowerList ds := by
    unfold lowerList
    rw [List.map_append]
    rfl
  have hpre : List.isPrefixOf "rate=".data (lowerList ("rate=".data ++ ds)) = true := by
    rw [hlow]
    exact isPrefixOf_append_self _ _
  have hafter : afterFirst '=' ("rate=".data ++ ds) = some ds := by
    show afterFirst '=' ('r' :: 'a' :: 't' :: 'e' :: '=' :: ds) = some ds
    simp [afterFirst]
  simp only [mimeParamStep, pyStrip_no_space hnospace, hpre, if_true, hafter,
    pyInt_digits hne hd]

theorem mimeParamStep_bits (p : AudioParams) {ds : List Char} (hne : ds ≠ [])
    (hd : ∀ c ∈ ds, c.isDigit = true) :
    mimeParamStep p ("audio/L".data ++ ds) = { p with bits_per_sample := (decDigitsVal ds : Int) } := by
  have hnospace : ∀ c ∈ "audio/L".data ++ ds, pyIsSpace c = false := by
    intro c hc
    rcases List.mem_append.mp hc with h1 | h1
    · have hr : "audio/L".data = ['a', 'u', 'd', 'i', 'o', '/', 'L'] := rfl
      rw [hr] at h1
      fin_cases h1 <;> decide
    · exact digit_not_space (hd c h1)
  have hlow : lowerList ("audio/L".data ++ ds) = "audio/l".data ++ lowerList ds := by
    unfold lowerList
    rw [List.map_append]
    rfl
  have hpre : List.isPrefixOf "rate=".data (lowerList ("audio/L".data ++ ds)) = false := by
    rw [hlow]
    rfl
  have hpre2 : List.isPrefixOf "audio/L".data ("audio/L".data ++ ds) = true :=
    isPrefixOf_append_self _ _
  have hafter : afterFirst 'L' ("audio/L".data ++ ds) = some ds := by
    show afterFirst 'L' ('a' :: 'u' :: 'd' :: 'i' :: 'o' :: '/' :: 'L' :: ds) = some ds
    simp [afterFirst]
  simp only [mimeParamStep, pyStrip_no_space hnospace, hpre, hpre2, if_true,
    Bool.false_eq_true, if_false, hafter, pyInt_digits hne hd]

theorem mimeParamStep_junk (p : AudioParams) {j : List Char}
    (hr : List.isPrefixOf "rate=".data (lowerList (pyStrip j)) = false)
    (hb : List.isPrefixOf "audio/L".data (pyStrip j) = false) :
    mimeParamStep p j = p := by
  simp only [mimeParamStep, hr, hb, Bool.false_eq_true, if_false]

/-- C8: descriptor parsing: rate and bits parameters, semicolon separation,
defaults, unrecognized and unparseable fragments ignored; total by type. -/
theorem C8_descriptor_grammar :
    (∀ (dsB dsR junk : List Char),
      dsB ≠ [] → (∀ c ∈ dsB, c.isDigit = true) →
      dsR ≠ [] → (∀ c ∈ dsR, c.isDigit = true) →
      ';' ∉ junk →
      List.isPrefixOf "rate=".data (lowerList (pyStrip junk)) = false →
      List.isPrefixOf "audio/L".data (pyStrip junk) = false →
      parse_audio_mime_type ⟨("audio/L".data ++ dsB) ++ ';' :: (junk ++ ';' :: ("rate=".data ++ dsR))⟩
        = ⟨(decDigitsVal dsB : Int), (decDigitsVal dsR : Int)⟩
      ∧ parse_audio_mime_type ⟨junk⟩ = ⟨16, 24000⟩)
    ∧ parse_audio_mime_type "" = ⟨16, 24000⟩
    ∧ parse_audio_mime_type "rate=x7;audio/Lq;foo" = ⟨16, 24000⟩ := by
  refine ⟨?_, by decide, by decide⟩
  intro dsB dsR junk hB1 hB2 hR1 hR2 hj hjr hjb
  have hsemiB : ';' ∉ ("audio/L".data ++ dsB) := by
    intro hm
    rcases List.mem_append.mp hm with h1 | h1
    · exact absurd h1 (by decide)
    · exact absurd rfl (digit_ne (hB2 _ h1) (by decide))
  have hsemiR : ';' ∉ ("rate=".data ++ dsR) := by
    intro hm
    rcases List.mem_append.mp hm with h1 | h1
    · exact absurd h1 (by decide)
    · exact absurd rfl (digit_ne (hR2 _ h1) (by decide))
  constructor
  · have hne : (⟨("audio/L".data ++ dsB) ++ ';' :: (junk ++ ';' :: ("rate=".data ++ dsR))⟩ : String) ≠ "" := by
      intro h
      have := congrArg String.data h
      simp at this
    unfold parse_audio_mime_type
    rw [if_neg hne]
    show List.foldl mimeParamStep ⟨16, 24000⟩
      (splitSemi (("audio/L".data ++ dsB) ++ ';' :: (junk ++ ';' :: ("rate=".data ++ dsR)))) = _
    rw [splitSemi_append_cons _ hsemiB, splitSemi_append_cons _ hj, splitSemi_no_semi hsemiR]
    simp only [List.foldl]
    rw [mimeParamStep_bits _ hB1 hB2, mimeParamStep_junk _ hjr hjb,
      mimeParamStep_rate _ hR1 hR2]
  · cases hjunkempty : junk with
    | nil =>
      decide
    | cons c cs =>
      have hne : (⟨junk⟩ : String) ≠ "" := by
        rw [hjunkempty]
        intro h
        have := congrArg String.data h
        simp at this
      rw [← hjunkempty]
      unfold parse_audio_mime_type
      rw [if_neg hne]
      show List.foldl mimeParamStep ⟨16, 24000⟩ (splitSemi junk) = _
      rw [splitSemi_no_semi hj]
      simp only [List.foldl]
      rw [mimeParamStep_junk _ hjr hjb]

/-- Witness for C8 at a concrete descriptor. -/
theorem C8_descriptor_grammar_witness :
    parse_audio_mime_type ⟨("audio/L".data ++ ['1', '6']) ++ ';' ::
        ("x=1".data ++ ';' :: ("rate=".data ++ ['2', '4', '0', '0', '0']))⟩
      = ⟨16, 24000⟩
    ∧ parse_audio_mime_type ⟨"x=1".data⟩ = ⟨16, 24000⟩ :=
  (C8_descriptor_grammar).1 ['1', '6'] ['2', '4', '0', '0', '0'] "x=1".data
    (by decide) (by decide) (by decide) (by decide) (by decide) (by decide) (by decide)

/-- C9: on a descriptor whose guessable extension names a wav container,
the encoder returns the input unchanged, hence applying it twice equals
applying it once. -/
theorem C9_encoder_idempotent (guessExt : String → Option String)
    (audio : List Nat) (m e : String)
    (hm : m ≠ "") (hg : guessExt m = some e)
    (hw : containsSub "wav".data (lowerList e.data) = true) :
    encodeAudio guessExt audio (some m) = .ok audio
    ∧ (encodeAudio guessExt audio (some m)).bind
        (fun b => encodeAudio guessExt b (some m)) = encodeAudio guessExt audio (some m) := by
  have h1 : encodeAudio guessExt audio (some m) = .ok audio := by
    simp only [encodeAudio, hm, if_false, hg, hw, if_true]
  refine ⟨h1, ?_⟩
  rw [h1]
  show encodeAudio guessExt audio (some m) = Except.ok audio
  exact h1

/-- Witness for C9 at a concrete extension table. -/
theorem C9_encoder_idempotent_witness :
    encodeAudio (fun s => if s = "audio/x-wav" then some ".wav" else none)
        [7, 8] (some "audio/x-wav") = .ok [7, 8]
    ∧ (encodeAudio (fun s => if s = "audio/x-wav" then some ".wav" else none)
        [7, 8] (some "audio/x-wav")).bind
        (fun b => encodeAudio (fun s => if s = "audio/x-wav" then some ".wav" else none)
          b (some "audio/x-wav"))
      = encodeAudio (fun s => if s = "audio/x-wav" then some ".wav" else none)
          [7, 8] (some "audio/x-wav") :=
  C9_encoder_idempotent (fun s => if s = "audio/x-wav" then some ".wav" else none)
    [7, 8] "audio/x-wav" ".wav" (by decide) (by simp) (by decide)

theorem convert_to_wav_L16 (audio : List Nat) (h : audio.length + 36 < 4294967296) :
    convert_to_wav audio "audio/L16;rate=24000" = .ok (wavChain audio.length audio) := by
  have hp : parse_audio_mime_type "audio/L16;rate=24000" = ⟨16, 24000⟩ := by decide
  have hchunk : packU32 (36 + (audio.length : Int)) = .ok (encU32 (36 + audio.length)) := by
    unfold packU32
    rw [if_pos (by constructor <;> omega)]
    have ht : (36 + (audio.length : Int)).toNat = 36 + audio.length := by omega
    rw [ht]
  have hsize : packU32 ((audio.length : Int)) = .ok (encU32 audio.length) := by
    unfold packU32
    rw [if_pos (by constructor <;> omega)]
    have ht : ((audio.length : Int)).toNat = audio.length := by omega
    rw [ht]
  unfold convert_to_wav wavChain
  rw [hp]
  simp only [bind, Except.bind, pure, Except.pure]
  norm_num [hchunk, hsize]
  rfl

theorem readU32_skip (a l : List Nat) : readU32 (a ++ l) a.length = readU32 l 0 := by
  unfold readU32
  rw [List.getD_append_right _ _ _ _ (Nat.le_refl _),
      List.getD_append_right _ _ _ _ (by omega),
      List.getD_append_right _ _ _ _ (by omega),
      List.getD_append_right _ _ _ _ (by omega)]
  have e0 : a.length - a.length = 0 := by omega
  have e1 : a.length + 1 - a.length = 1 := by omega
  have e2 : a.length + 2 - a.length = 2 := by omega
  have e3 : a.length + 3 - a.length = 3 := by omega
  rw [e0, e1, e2, e3]

theorem readU16_skip (a l : List Nat) : readU16 (a ++ l) a.length = readU16 l 0 := by
  unfold readU16
  rw [List.getD_append_right _ _ _ _ (Nat.le_refl _),
      List.getD_append_right _ _ _ _ (by omega)]
  have e0 : a.length - a.length = 0 := by omega
  have e1 : a.length + 1 - a.length = 1 := by omega
  rw [e0, e1]

theorem readU32_at (a r w : List Nat) (i : Nat) (ha : a.length = i) (hw : w = a ++ r) :
    readU32 w i = readU32 r 0 := by
  subst hw
  subst ha
  exact readU32_skip a r

theorem readU16_at (a r w : List Nat) (i : Nat) (ha : a.length = i) (hw : w = a ++ r) :
    readU16 w i = readU16 r 0 := by
  subst hw
  subst ha
  exact readU16_skip a r

theorem decode_encU32 (n : Nat) (h : n < 4294967296) :
    n % 256 + 256 * (n / 256 % 256) + 65536 * (n / 65536 % 256)
      + 16777216 * (n / 16777216 % 256) = n := by
  omega

theorem readU32_encU32 (n : Nat) (tail : List Nat) (h : n < 4294967296) :
    readU32 (encU32 n ++ tail) 0 = n := by
  have hs : readU32 (encU32 n ++ tail) 0
      = n % 256 + 256 * (n / 256 % 256) + 65536 * (n / 65536 % 256)
        + 16777216 * (n / 16777216 % 256) := by
    simp [readU32, encU32]
  rw [hs]
  exact decode_encU32 n h

/-- C7 amended: for payloads with 36 + N below 2 to the 32, the encoder with
descriptor audio/L16 rate 24000 yields a 44-byte header followed by the
unchanged samples, whose read-back gives rate 24000, 16 bits, one channel,
block align 2, byte rate equal to rate times block align, data length N and
chunk size 36 + N. -/
theorem C7_wav_header (audio : List Nat) (h : audio.length + 36 < 4294967296) :
    convert_to_wav audio "audio/L16;rate=24000" = .ok (wavChain audio.length audio)
      ∧ (wavChain audio.length audio).length = 44 + audio.length
      ∧ (wavChain audio.length audio).drop 44 = audio
      ∧ readU32 (wavChain audio.length audio) 24 = 24000
      ∧ readU16 (wavChain audio.length audio) 34 = 16
      ∧ readU16 (wavChain audio.length audio) 22 = 1
      ∧ readU16 (wavChain audio.length audio) 32 = 2
      ∧ readU32 (wavChain audio.length audio) 28
          = readU32 (wavChain audio.length audio) 24 * readU16 (wavChain audio.length audio) 32
      ∧ readU32 (wavChain audio.length audio) 40 = audio.length
      ∧ readU32 (wavChain audio.length audio) 4 = 36 + audio.length := by
  have h24 : readU32 (wavChain audio.length audio) 24 = 24000 := by
    rw [readU32_at ([82, 73, 70, 70] ++ encU32 (36 + audio.length) ++ [87, 65, 86, 69]
          ++ [102, 109, 116, 32] ++ [16, 0, 0, 0] ++ [1, 0] ++ [1, 0])
        ([192, 93, 0, 0] ++ [128, 187, 0, 0] ++ [2, 0] ++ [16, 0]
          ++ [100, 97, 116, 97] ++ encU32 audio.length ++ audio)
        _ 24 (by simp [encU32]) (by simp [wavChain, List.append_assoc])]
    have e0 : ([192, 93, 0, 0] ++ [128, 187, 0, 0] ++ [2, 0] ++ [16, 0]
      ++ [100, 97, 116, 97] ++ encU32 audio.length ++ audio).getD 0 0 = 192 := rfl
    have e1 : ([192, 93, 0, 0] ++ [128, 187, 0, 0] ++ [2, 0] ++ [16, 0]
      ++ [100, 97, 116, 97] ++ encU32 audio.length ++ audio).getD (0 + 1) 0 = 93 := rfl
    have e2 : ([192, 93, 0, 0] ++ [128, 187, 0, 0] ++ [2, 0] ++ [16, 0]
      ++ [100, 97, 116, 97] ++ encU32 audio.length ++ audio).getD (0 + 2) 0 = 0 := rfl
    have e3 : ([192, 93, 0, 0] ++ [128, 187, 0, 0] ++ [2, 0] ++ [16, 0]
      ++ [100, 97, 116, 97] ++ encU32 audio.length ++ audio).getD (0 + 3) 0 = 0 := rfl
    unfold readU32
    rw [e0, e1, e2, e3]
  have h34 : readU16 (wavChain audio.length audio) 34 = 16 := by
    rw [readU16_at ([82, 73, 70, 70] ++ encU32 (36 + audio.length) ++ [87, 65, 86, 69]
          ++ [102, 109, 116, 32] ++ [16, 0, 0, 0] ++ [1, 0] ++ [1, 0]
          ++ [192, 93, 0, 0] ++ [128, 187, 0, 0] ++ [2, 0])
        ([16, 0] ++ [100, 97, 116, 97] ++ encU32 audio.length ++ audio)
        _ 34 (by simp [encU32]) (by simp [wavChain, List.append_assoc])]
    rfl
  have h22 : readU16 (wavChain audio.length audio) 22 = 1 := by
    rw [readU16_at ([82, 73, 70, 70] ++ encU32 (36 + audio.length) ++ [87, 65, 86, 69]
          ++ [102, 109, 116, 32] ++ [16, 0, 0, 0] ++ [1, 0])
        ([1, 0] ++ [192, 93, 0, 0] ++ [128, 187, 0, 0] ++ [2, 0] ++ [16, 0]
          ++ [100, 97, 116, 97] ++ encU32 audio.length ++ audio)
        _ 22 (by simp [encU32]) (by simp [wavChain, List.append_assoc])]
    rfl
  have h32 : readU16 (wavChain audio.length audio) 32 = 2 := by
    rw [readU16_at ([82, 73, 70, 70] ++ encU32 (36 + audio.length) ++ [87, 65, 86, 69]
          ++ [102, 109, 116, 32] ++ [16, 0, 0, 0] ++ [1, 0] ++ [1, 0]
          ++ [192, 93, 0, 0] ++ [128, 187, 0, 0])
        ([2, 0] ++ [16, 0] ++ [100, 97, 116, 97] ++ encU32 audio.length ++ audio)
        _ 32 (by simp [encU32]) (by simp [wavChain, List.append_assoc])]
    rfl
  have h28 : readU32 (wavChain audio.length audio) 28 = 48000 := by
    rw [readU32_at ([82, 73, 70, 70] ++ encU32 (36 + audio.length) ++ [87, 65, 86, 69]
          ++ [102, 109, 116, 32] ++ [16, 0, 0, 0] ++ [1, 0] ++ [1, 0] ++ [192, 93, 0, 0])
        ([128, 187, 0, 0] ++ [2, 0] ++ [16, 0]
          ++ [100, 97, 116, 97] ++ encU32 audio.length ++ audio)
        _ 28 (by simp [encU32]) (by simp [wavChain, List.append_assoc])]
    have e0 : ([128, 187, 0, 0] ++ [2, 0] ++ [16, 0]
      ++ [100, 97, 116, 97] ++ encU32 audio.length ++ audio).getD 0 0 = 128 := rfl
    have e1 : ([128, 187, 0, 0] ++ [2, 0] ++ [16, 0]
      ++ [100, 97, 116, 97] ++ encU32 audio.length ++ audio).getD (0 + 1) 0 = 187 := rfl
    have e2 : ([128, 187, 0, 0] ++ [2, 0] ++ [16, 0]
      ++ [100, 97, 116, 97] ++ encU32 audio.length ++ audio).getD (0 + 2) 0 = 0 := rfl
    have e3 : ([128, 187, 0, 0] ++ [2, 0] ++ [16, 0]
      ++ [100, 97, 116, 97] ++ encU32 audio.length ++ audio).getD (0 + 3) 0 = 0 := rfl
    unfold readU32
    rw [e0, e1, e2, e3]
  have h40 : readU32 (wavChain audio.length audio) 40 = audio.length := by
    rw [readU32_at ([82, 73, 70, 70] ++ encU32 (36 + audio.length) ++ [87, 65, 86, 69]
          ++ [102, 109, 116, 32] ++ [16, 0, 0, 0] ++ [1, 0] ++ [1, 0]
          ++ [192, 93, 0, 0] ++ [128, 187, 0, 0] ++ [2, 0] ++ [16, 0] ++ [100, 97, 116, 97])
        (encU32 audio.length ++ audio)
        _ 40 (by simp [encU32]) (by simp [wavChain, List.append_assoc])]
    exact readU32_encU32 _ _ (by omega)
  have h4 : readU32 (wavChain audio.length audio) 4 = 36 + audio.length := by
    rw [readU32_at [82, 73, 70, 70]
        (encU32 (36 + audio.length) ++ ([87, 65, 86, 69]
          ++ [102, 109, 116, 32] ++ [16, 0, 0, 0] ++ [1, 0] ++ [1, 0]
          ++ [192, 93, 0, 0] ++ [128, 187, 0, 0] ++ [2, 0] ++ [16, 0]
          ++ [100, 97, 116, 97] ++ encU32 audio.length ++ audio))
        _ 4 (by simp) (by simp [wavChain, List.append_assoc])]
    exact readU32_encU32 _ _ (by omega)
  refine ⟨convert_to_wav_L16 audio h,
    ?_, ?_, h24, h34, h22, h32, ?_, h40, h4⟩
  · simp [wavChain, encU32]
    omega
  · rw [show wavChain audio.length audio
      = ([82, 73, 70, 70] ++ encU32 (36 + audio.length) ++ [87, 65, 86, 69]
        ++ [102, 109, 116, 32] ++ [16, 0, 0, 0] ++ [1, 0] ++ [1, 0]
        ++ [192, 93, 0, 0] ++ [128, 187, 0, 0] ++ [2, 0] ++ [16, 0]
        ++ [100, 97, 116, 97] ++ encU32 audio.length) ++ audio from by
        simp [wavChain, List.append_assoc]]
    rw [show (44 : Nat) = ([82, 73, 70, 70] ++ encU32 (36 + audio.length)
        ++ [87, 65, 86, 69] ++ [102, 109, 116, 32] ++ [16, 0, 0, 0] ++ [1, 0] ++ [1, 0]
        ++ [192, 93, 0, 0] ++ [128, 187, 0, 0] ++ [2, 0] ++ [16, 0]
        ++ [100, 97, 116, 97] ++ encU32 audio.length).length from by simp [encU32]]
    exact List.drop_left _ _
  · rw [h28, h24, h32]

/-- Witness for C7 at a concrete three-byte payload. -/
theorem C7_wav_header_witness :
    convert_to_wav [1, 2, 3] "audio/L16;rate=24000" = .ok (wavChain 3 [1, 2, 3])
      ∧ (wavChain 3 [1, 2, 3]).length = 44 + 3
      ∧ (wavChain 3 [1, 2, 3]).drop 44 = [1, 2, 3]
      ∧ readU32 (wavChain 3 [1, 2, 3]) 24 = 24000
      ∧ readU16 (wavChain 3 [1, 2, 3]) 34 = 16
      ∧ readU16 (wavChain 3 [1, 2, 3]) 22 = 1
      ∧ readU16 (wavChain 3 [1, 2, 3]) 32 = 2
      ∧ readU32 (wavChain 3 [1, 2, 3]) 28
          = readU32 (wavChain 3 [1, 2, 3]) 24 * readU16 (wavChain 3 [1, 2, 3]) 32
      ∧ readU32 (wavChain 3 [1, 2, 3]) 40 = 3
      ∧ readU32 (wavChain 3 [1, 2, 3]) 4 = 36 + 3 :=
  C7_wav_header [1, 2, 3] (by norm_num)

/-- C7 counterexample: at a payload with 36 + N equal to 2 to the 32, the
header pack raises struct.error instead of producing a header. -/
theorem C7_counterexample :
    isOkBytes (convert_to_wav (List.replicate 4294967260 0) "audio/L16;rate=24000") = false := by
  have hp : parse_audio_mime_type "audio/L16;rate=24000" = ⟨16, 24000⟩ := by decide
  have hlen : (List.replicate 4294967260 (0 : Nat)).length = 4294967260 :=
    List.length_replicate _ _
  unfold convert_to_wav
  rw [hp]
  simp only [hlen]
  norm_num [packU16, packU32, bind, Except.bind, isOkBytes]

theorem space_not_lt {c : Char} (h : pyIsSpace c = true) : ¬ c = '<' := by
  simp only [pyIsSpace, Bool.or_eq_true, decide_eq_true_eq] at h
  rcases h with ((((h1 | h1) | h1) | h1) | h1) | h1 <;> subst h1 <;> decide

theorem findGt_tag : ∀ {inner : List Char} (rest : List Char),
    (∀ c ∈ inner, c ≠ '>') → findGt (inner ++ '>' :: rest) = some (inner, rest)
  | [], rest, _ => by simp [findGt]
  | c :: cs, rest, h => by
    have hc : ¬ c = '>' := h c (by simp)
    have ih := findGt_tag rest (fun d hd => h d (List.mem_cons_of_mem c hd))
    simp [findGt, hc, ih]

theorem stripTagsGo_ws_step (c' : Char) (rest : List Char) (f : Nat)
    (hs : pyIsSpace c' = true) :
    stripTagsGo (f + 1) (c' :: rest) = c' :: stripTagsGo f rest := by
  simp only [stripTagsGo, if_neg (space_not_lt hs)]

theorem stripTagsGo_tag_step (i0 : Char) (irest rest : List Char) (f : Nat)
    (hin : ∀ c ∈ i0 :: irest, c ≠ '>') :
    stripTagsGo (f + 1) ('<' :: (i0 :: irest) ++ '>' :: rest) = stripTagsGo f rest := by
  have hfind : findGt ((i0 :: irest) ++ '>' :: rest) = some (i0 :: irest, rest) :=
    findGt_tag rest hin
  simp only [stripTagsGo, List.append_eq, if_true]
  rw [hfind]

theorem stripTagsGo_markup : ∀ {t : List Char}, MarkupWS t →
    ∀ fuel, t.length ≤ fuel → ∀ c ∈ stripTagsGo fuel t, pyIsSpace c = true
  | _, .nil, fuel, _, c, hc => by
    cases fuel <;> simp [stripTagsGo] at hc
  | _, @MarkupWS.ws c' rest hs hrest, fuel, hf, c, hc => by
    cases fuel with
    | zero => simp at hf
    | succ f =>
      rw [stripTagsGo_ws_step c' rest f hs] at hc
      rcases List.mem_cons.mp hc with h1 | h1
      · exact h1 ▸ hs
      · exact stripTagsGo_markup hrest f (by simpa using hf) c h1
  | _, @MarkupWS.tag inner rest hne hin hrest, fuel, hf, c, hc => by
    cases fuel with
    | zero => simp at hf
    | succ f =>
      cases inner with
      | nil => exact absurd rfl hne
      | cons i0 irest =>
        rw [stripTagsGo_tag_step i0 irest rest f hin] at hc
        refine stripTagsGo_markup hrest f ?_ c hc
        simp only [List.length_cons, List.length_append] at hf
        omega

theorem collapseWSGo_all_space {l : List Char} (h : ∀ c ∈ l, pyIsSpace c = true) :
    ∀ b, ∀ c ∈ collapseWSGo b l, pyIsSpace c = true := by
  induction l with
  | nil => intro b c hc; simp [collapseWSGo] at hc
  | cons a rest ih =>
    intro b c hc
    have ha := h a (by simp)
    simp only [collapseWSGo, ha, if_true] at hc
    cases b with
    | true => exact ih (fun d hd => h d (List.mem_cons_of_mem a hd)) true c hc
    | false =>
      rcases List.mem_cons.mp hc with h1 | h1
      · subst h1; decide
      · exact ih (fun d hd => h d (List.mem_cons_of_mem a hd)) true c h1

theorem dropWhile_all_true {p : Char → Bool} :
    ∀ {l : List Char}, (∀ c ∈ l, p c = true) → l.dropWhile p = []
  | [], _ => rfl
  | c :: cs, h => by
    simp only [List.dropWhile_cons, h c (by simp), if_true]
    exact dropWhile_all_true (fun d hd => h d (List.mem_cons_of_mem c hd))

theorem pyStrip_all_space {l : List Char} (h : ∀ c ∈ l, pyIsSpace c = true) :
    pyStrip l = [] := by
  unfold pyStrip
  rw [dropWhile_all_true h]
  rfl

theorem cleanText_markup {s : String} (h : MarkupWS s.data) : cleanText s = "" := by
  unfold cleanText
  have h1 := stripTagsGo_markup h s.data.length (Nat.le_refl _)
  have h2 : ∀ c ∈ collapseWSGo false (stripTagsGo s.data.length s.data), pyIsSpace c = true :=
    collapseWSGo_all_space h1 false
  show (⟨pyStrip (collapseWSGo false (stripTagsGo s.data.length s.data))⟩ : String) = ""
  rw [pyStrip_all_space h2]

/-- C10: a source text of markup and whitespace only cleans to the empty
string; the mapping is counted skipped, never failed, no API call is made,
and the mapping loop is not broken (processing continues). -/
theorem C10_markup_only_skips (env : WEnv) (cfg : WConfig) (idx nid : Nat)
    (note : Note) (m : NTConfig) (st : WState)
    (hsrc : note.hasField m.source_field = true)
    (hmk : MarkupWS (note.getField m.source_field).data) :
    cleanText (note.getField m.source_field) = ""
    ∧ (processMapping env cfg idx nid note m st).1
        = { st with skipped_ops := st.skipped_ops + 1 }
    ∧ (processMapping env cfg idx nid note m st).1.failed_ops = st.failed_ops
    ∧ (processMapping env cfg idx nid note m st).1.success_ops = st.success_ops
    ∧ (processMapping env cfg idx nid note m st).1.consecutive_errors
        = st.consecutive_errors
    ∧ (processMapping env cfg idx nid note m st).1.orchCalls = st.orchCalls
    ∧ (processMapping env cfg idx nid note m st).2.2 = false := by
  have hclean := cleanText_markup hmk
  have key : (processMapping env cfg idx nid note m st).1
        = { st with skipped_ops := st.skipped_ops + 1 }
      ∧ (processMapping env cfg idx nid note m st).2.2 = false := by
    unfold processMapping
    by_cases hse : skipExistingHit cfg note m
    · simp [hsrc, hse]
    · simp [hsrc, hse, hclean]
  refine ⟨hclean, key.1, ?_, ?_, ?_, ?_, key.2⟩ <;> rw [key.1]

/-- Witness for C10 at a concrete markup-only note text. -/
theorem C10_markup_only_skips_witness :
    cleanText ((Note.mk "T" [("Front", "<b> </b>")]).getField "Front") = ""
    ∧ (processMapping
        ⟨fun _ => some (Note.mk "T" [("Front", "<b> </b>")]),
         fun _ => ⟨none, "", none⟩, fun _ => 0, fun _ => .saved, fun _ => false⟩
        ⟨[⟨"T", "Front", "Audio", true⟩], true, false, 0, false⟩ 0 1
        (Note.mk "T" [("Front", "<b> </b>")]) ⟨"T", "Front", "Audio", true⟩ initWState).1
        = { initWState with skipped_ops := initWState.skipped_ops + 1 }
    ∧ (processMapping
        ⟨fun _ => some (Note.mk "T" [("Front", "<b> </b>")]),
         fun _ => ⟨none, "", none⟩, fun _ => 0, fun _ => .saved, fun _ => false⟩
        ⟨[⟨"T", "Front", "Audio", true⟩], true, false, 0, false⟩ 0 1
        (Note.mk "T" [("Front", "<b> </b>")]) ⟨"T", "Front", "Audio", true⟩ initWState).1.failed_ops
        = initWState.failed_ops
    ∧ (processMapping
        ⟨fun _ => some (Note.mk "T" [("Front", "<b> </b>")]),
         fun _ => ⟨none, "", none⟩, fun _ => 0, fun _ => .saved, fun _ => false⟩
        ⟨[⟨"T", "Front", "Audio", true⟩], true, false, 0, false⟩ 0 1
        (Note.mk "T" [("Front", "<b> </b>")]) ⟨"T", "Front", "Audio", true⟩ initWState).1.success_ops
        = initWState.success_ops
    ∧ (processMapping
        ⟨fun _ => some (Note.mk "T" [("Front", "<b> </b>")]),
         fun _ => ⟨none, "", none⟩, fun _ => 0, fun _ => .saved, fun _ => false⟩
        ⟨[⟨"T", "Front", "Audio", true⟩], true, false, 0, false⟩ 0 1
        (Note.mk "T" [("Front", "<b> </b>")]) ⟨"T", "Front", "Audio", true⟩ initWState).1.consecutive_errors
        = initWState.consecutive_errors
    ∧ (processMapping
        ⟨fun _ => some (Note.mk "T" [("Front", "<b> </b>")]),
         fun _ => ⟨none, "", none⟩, fun _ => 0, fun _ => .saved, fun _ => false⟩
        ⟨[⟨"T", "Front", "Audio", true⟩], true, false, 0, false⟩ 0 1
        (Note.mk "T" [("Front", "<b> </b>")]) ⟨"T", "Front", "Audio", true⟩ initWState).1.orchCalls
        = initWState.orchCalls
    ∧ (processMapping
        ⟨fun _ => some (Note.mk "T" [("Front", "<b> </b>")]),
         fun _ => ⟨none, "", none⟩, fun _ => 0, fun _ => .saved, fun _ => false⟩
        ⟨[⟨"T", "Front", "Audio", true⟩], true, false, 0, false⟩ 0 1
        (Note.mk "T" [("Front", "<b> </b>")]) ⟨"T", "Front", "Audio", true⟩ initWState).2.2
        = false :=
  C10_markup_only_skips _ _ 0 1 (Note.mk "T" [("Front", "<b> </b>")])
    ⟨"T", "Front", "Audio", true⟩ initWState (by decide)
    (@MarkupWS.tag ['b'] [' ', '<', '/', 'b', '>'] (by decide) (by decide)
      (MarkupWS.ws (by decide)
        (@MarkupWS.tag ['/', 'b'] [] (by decide) (by decide) MarkupWS.nil)))

/-- C2: the fallback orchestrator is total (no exception escapes: it returns
a plain triple by type) and: a generic primary failure is returned as
no-audio with the error text and empty usage under either fallback setting;
a rate-limit signal with fallback disabled returns the signal message with
empty usage; with fallback enabled it consumes one cancellation read (the
skippable one-second wait) and makes exactly one full fallback call, whose
audio success is tagged with the fallback model, and whose own failure is
returned as no-audio with the error text and empty usage, never retried. -/
theorem C2_fallback_orchestrator (env : PEnv) (st : PState) (text pm fm : String)
    (mr rd : Nat) (roe : Bool) :
    (∀ (enable : Bool) (st1 : PState) (msg : String),
      generate_audio env st text pm mr rd roe = (st1, .error (.generic msg)) →
      generate_with_fallback env st text pm fm enable mr rd roe = (st1, (none, msg, none)))
    ∧ (∀ (st1 : PState) (msg : String),
      generate_audio env st text pm mr rd roe = (st1, .error (.rateLimit msg)) →
      generate_with_fallback env st text pm fm false mr rd roe = (st1, (none, msg, none)))
    ∧ (∀ (st1 : PState) (msg : String),
      generate_audio env st text pm mr rd roe = (st1, .error (.rateLimit msg)) →
      (∀ (st3 : PState) (audio : List Nat) (u : Usage),
        generate_audio env { st1 with cancelChecks := st1.cancelChecks + 1 } text fm mr rd roe
          = (st3, .ok (some audio, u)) → audio ≠ [] →
        generate_with_fallback env st text pm fm true mr rd roe
          = (st3, (some audio, fm, some u)))
      ∧ (∀ (st3 : PState) (u : Usage),
        generate_audio env { st1 with cancelChecks := st1.cancelChecks + 1 } text fm mr rd roe
          = (st3, .ok (none, u)) →
        generate_with_fallback env st text pm fm true mr rd roe
          = (st3, (none, "Fallback model: No audio generated", some u)))
      ∧ (∀ (st3 : PState) (e : SynthErr),
        generate_audio env { st1 with cancelChecks := st1.cancelChecks + 1 } text fm mr rd roe
          = (st3, .error e) →
        generate_with_fallback env st text pm fm true mr rd roe
          = (st3, (none, e.msg, none)))) := by
  refine ⟨?_, ?_, ?_⟩
  · intro enable st1 msg h1
    unfold generate_with_fallback
    rw [h1]
  · intro st1 msg h1
    unfold generate_with_fallback
    rw [h1]
    simp
  · intro st1 msg h1
    refine ⟨?_, ?_, ?_⟩
    · intro st3 audio u h2 hne
      unfold generate_with_fallback
      rw [h1]
      simp only [if_true]
      rw [h2]
      cases audio with
      | nil => exact absurd rfl hne
      | cons a rest => simp
    · intro st3 u h2
      unfold generate_with_fallback
      rw [h1]
      simp only [if_true]
      rw [h2]
    · intro st3 e h2
      unfold generate_with_fallback
      rw [h1]
      simp only [if_true]
      rw [h2]

/-- Witness for C2: a primary that rate-limits and a fallback that streams
audio; the result is tagged with the fallback model name. -/
theorem C2_fallback_orchestrator_witness :
    generate_with_fallback
      ⟨fun k => if k = 0 then ⟨[], some "429 quota exceeded"⟩
        else ⟨[⟨some (10, 20), some ([5, 6], some "audio/L16;rate=24000")⟩], none⟩,
       fun _ => false, fun _ => none⟩
      ⟨0, 0⟩ "hi" "pm" "fm" true 3 2 false
    = (⟨2, 5⟩, (some (wavChain 2 [5, 6]), "fm", some ⟨10, 20⟩)) :=
  ((C2_fallback_orchestrator
      ⟨fun k => if k = 0 then ⟨[], some "429 quota exceeded"⟩
        else ⟨[⟨some (10, 20), some ([5, 6], some "audio/L16;rate=24000")⟩], none⟩,
       fun _ => false, fun _ => none⟩
      ⟨0, 0⟩ "hi" "pm" "fm" 3 2 false).2.2 ⟨1, 2⟩ "429 quota exceeded" rfl).1
    ⟨2, 5⟩ (wavChain 2 [5, 6]) ⟨10, 20⟩ rfl (by decide)


theorem streamChunks_inl (env : PEnv) (hc : ∀ k, env.cancelAt k = false) :
    ∀ (cs : List Chunk) (st : PState) (u : Usage) (ds : List (List Nat)) (m : Option String),
    ∃ r, streamChunks env st u ds m cs = .inl r ∧ r.1.attemptCalls = st.attemptCalls
  | [], st, u, ds, m => ⟨(st, u, ds, m), rfl, rfl⟩
  | ch :: rest, st, u, ds, m => by
    unfold streamChunks
    rw [hc st.cancelChecks]
    simp only [Bool.false_eq_true, if_false]
    obtain ⟨r, hr, ha⟩ := streamChunks_inl env hc rest
      { st with cancelChecks := st.cancelChecks + 1 }
      (applyChunk u ds m ch).1 (applyChunk u ds m ch).2.1 (applyChunk u ds m ch).2.2
    exact ⟨r, hr, ha⟩

theorem classifyErr_rate {msg : String} (isEmpty : Bool) (attempt mr : Nat)
    (hsig : (containsSub "429".data (lowerList msg.data)
      || containsSub "resource_exhausted".data (lowerList msg.data)) = true) :
    classifyErr msg isEmpty attempt mr = .rate := by
  simp only [classifyErr, hsig, if_true]

theorem genAudioLoop_rate (env : PEnv) (hc : ∀ k, env.cancelAt k = false)
    (rd : Nat) (roe : Bool) (mr left attempt : Nat) (st : PState) (usage : Usage)
    (msg : String)
    (herr : (env.attempts st.attemptCalls).err = some msg)
    (hsig : (containsSub "429".data (lowerList msg.data)
      || containsSub "resource_exhausted".data (lowerList msg.data)) = true) :
    (genAudioLoop env rd roe mr (left + 1) attempt st usage).2 = .error (.rateLimit msg)
    ∧ (genAudioLoop env rd roe mr (left + 1) attempt st usage).1.attemptCalls
        = st.attemptCalls + 1 := by
  obtain ⟨⟨st3, u3, ds3, m3⟩, hr, ha⟩ := streamChunks_inl env hc
    (env.attempts st.attemptCalls).chunks
    { st with cancelChecks := st.cancelChecks + 1, attemptCalls := st.attemptCalls + 1 }
    usage [] none
  unfold genAudioLoop
  rw [hc st.cancelChecks]
  simp only [Bool.false_eq_true, if_false]
  rw [show ({ st with cancelChecks := st.cancelChecks + 1, attemptCalls := st.attemptCalls + 1 } : PState)
    = { { st with cancelChecks := st.cancelChecks + 1 } with
        attemptCalls := ({ st with cancelChecks := st.cancelChecks + 1 } : PState).attemptCalls + 1 } from rfl] at hr
  rw [hr, herr]
  unfold attemptErrStep
  dsimp only
  rw [hc st3.cancelChecks]
  simp only [Bool.false_eq_true, if_false]
  rw [classifyErr_rate false attempt mr hsig]
  dsimp only
  exact ⟨rfl, by simp at ha ⊢; omega⟩

theorem waitLoopP_no_cancel (env : PEnv) (hc : ∀ k, env.cancelAt k = false) :
    ∀ (t : Nat) (st : PState),
    waitLoopP env t st = (false, { st with cancelChecks := st.cancelChecks + t })
  | 0, st => by simp [waitLoopP]
  | t + 1, st => by
    unfold waitLoopP readCancelP
    rw [hc st.cancelChecks]
    simp only [Bool.false_eq_true, if_false]
    rw [waitLoopP_no_cancel env hc t]
    have h1 : st.cancelChecks + 1 + t = st.cancelChecks + (t + 1) := by omega
    simp [h1]

theorem classifyErr_retry {msg : String} (attempt mr : Nat)
    (hnr : (containsSub "429".data (lowerList msg.data)
      || containsSub "resource_exhausted".data (lowerList msg.data)) = false)
    (htr : (containsSub "500".data (lowerList msg.data)
      || containsSub "503".data (lowerList msg.data)
      || containsSub "timeout".data (lowerList msg.data)) = true)
    (hlast : attempt < mr - 1) :
    classifyErr msg false attempt mr = .retryAfterSleep := by
  simp only [classifyErr]
  rw [hnr]
  simp only [Bool.false_eq_true, if_false]
  simp only [Bool.or_eq_true] at htr ⊢
  simp [htr, hlast]

theorem genAudioLoop_transient_retry (env : PEnv) (hc : ∀ k, env.cancelAt k = false)
    (rd : Nat) (roe : Bool) (mr left attempt : Nat) (st : PState) (usage : Usage)
    (msg : String)
    (herr : env.attempts st.attemptCalls = ⟨[], some msg⟩)
    (hnr : (containsSub "429".data (lowerList msg.data)
      || containsSub "resource_exhausted".data (lowerList msg.data)) = false)
    (htr : (containsSub "500".data (lowerList msg.data)
      || containsSub "503".data (lowerList msg.data)
      || containsSub "timeout".data (lowerList msg.data)) = true)
    (hlast : attempt < mr - 1) :
    genAudioLoop env rd roe mr (left + 1) attempt st usage
      = genAudioLoop env rd roe mr left (attempt + 1)
          ⟨st.attemptCalls + 1, st.cancelChecks + 2 + rd * (attempt + 1) * 10⟩ usage := by
  rw [genAudioLoop]
  rw [hc st.cancelChecks]
  simp only [Bool.false_eq_true, if_false]
  rw [herr]
  simp only [streamChunks]
  unfold attemptErrStep
  rw [hc]
  simp only [Bool.false_eq_true, if_false]
  rw [classifyErr_retry attempt mr hnr htr hlast]
  dsimp only
  rw [waitLoopP_no_cancel env hc]

theorem classifyErr_empty_final (attempt mr : Nat) (hlast : ¬ attempt < mr - 1) :
    classifyErr "Received empty audio stream from API." true attempt mr = .resolveEmpty := by
  simp only [classifyErr]
  rw [show (containsSub "429".data (lowerList "Received empty audio stream from API.".data)
    || containsSub "resource_exhausted".data
        (lowerList "Received empty audio stream from API.".data)) = false from by decide]
  simp [hlast]

theorem genAudioLoop_empty_final (env : PEnv) (hc : ∀ k, env.cancelAt k = false)
    (rd : Nat) (mr left attempt : Nat) (st : PState) (usage : Usage)
    (herr : env.attempts st.attemptCalls = ⟨[], none⟩)
    (hlast : ¬ attempt < mr - 1) :
    genAudioLoop env rd true mr (left + 1) attempt st usage
      = (⟨st.attemptCalls + 1, st.cancelChecks + 2⟩, .ok (none, usage)) := by
  rw [genAudioLoop]
  rw [hc st.cancelChecks]
  simp only [Bool.false_eq_true, if_false]
  rw [herr]
  simp only [streamChunks]
  unfold attemptErrStep
  rw [hc]
  simp only [Bool.false_eq_true, if_false]
  rw [classifyErr_empty_final attempt mr hlast]
  rfl

theorem classifyErr_generic {msg : String} (attempt mr : Nat)
    (hnr : (containsSub "429".data (lowerList msg.data)
      || containsSub "resource_exhausted".data (lowerList msg.data)) = false)
    (hnt : (containsSub "500".data (lowerList msg.data)
      || containsSub "503".data (lowerList msg.data)
      || containsSub "timeout".data (lowerList msg.data)) = false ∨ ¬ attempt < mr - 1) :
    classifyErr msg false attempt mr = .generic := by
  simp only [classifyErr]
  rw [hnr]
  simp only [Bool.false_eq_true, if_false, Bool.or_false]
  rcases hnt with h1 | h1
  · rw [h1]
    simp
  · simp [h1]

theorem genAudioLoop_generic (env : PEnv) (hc : ∀ k, env.cancelAt k = false)
    (rd : Nat) (roe : Bool) (mr left attempt : Nat) (st : PState) (usage : Usage)
    (msg : String)
    (herr : env.attempts st.attemptCalls = ⟨[], some msg⟩)
    (hnr : (containsSub "429".data (lowerList msg.data)
      || containsSub "resource_exhausted".data (lowerList msg.data)) = false)
    (hnt : (containsSub "500".data (lowerList msg.data)
      || containsSub "503".data (lowerList msg.data)
      || containsSub "timeout".data (lowerList msg.data)) = false ∨ ¬ attempt < mr - 1) :
    genAudioLoop env rd roe mr (left + 1) attempt st usage
      = (⟨st.attemptCalls + 1, st.cancelChecks + 2⟩, .error (.generic msg)) := by
  rw [genAudioLoop]
  rw [hc st.cancelChecks]
  simp only [Bool.false_eq_true, if_false]
  rw [herr]
  simp only [streamChunks]
  unfold attemptErrStep
  rw [hc]
  simp only [Bool.false_eq_true, if_false]
  rw [classifyErr_generic attempt mr hnr hnt]

/-- C3: classification of transport errors inside the synthesis client,
under a never-cancelled flag: a message with a rate-limit signature is
re-raised as the distinguished rate-limit signal after exactly one
transport interaction (no local retry); a transient signature off the last
attempt sleeps retry_delay times attempt-plus-one seconds in tenth-second
flag-checked ticks (observable as exactly that many extra flag reads) and
proceeds to the next attempt; an empty response on the final attempt under
retry_on_empty resolves to no audio with the accumulated usage, not an
error; any other message propagates as a generic failure carrying the
original message. -/
theorem C3_error_classification (env : PEnv) (hc : ∀ k, env.cancelAt k = false)
    (rd : Nat) (roe : Bool) (mr : Nat) :
    (∀ (left attempt : Nat) (st : PState) (usage : Usage) (msg : String),
      (env.attempts st.attemptCalls).err = some msg →
      (containsSub "429".data (lowerList msg.data)
        || containsSub "resource_exhausted".data (lowerList msg.data)) = true →
      (genAudioLoop env rd roe mr (left + 1) attempt st usage).2 = .error (.rateLimit msg)
      ∧ (genAudioLoop env rd roe mr (left + 1) attempt st usage).1.attemptCalls
          = st.attemptCalls + 1)
    ∧ (∀ (left attempt : Nat) (st : PState) (usage : Usage) (msg : String),
      env.attempts st.attemptCalls = ⟨[], some msg⟩ →
      (containsSub "429".data (lowerList msg.data)
        || containsSub "resource_exhausted".data (lowerList msg.data)) = false →
      (containsSub "500".data (lowerList msg.data)
        || containsSub "503".data (lowerList msg.data)
        || containsSub "timeout".data (lowerList msg.data)) = true →
      attempt < mr - 1 →
      genAudioLoop env rd roe mr (left + 1) attempt st usage
        = genAudioLoop env rd roe mr left (attempt + 1)
            ⟨st.attemptCalls + 1, st.cancelChecks + 2 + rd * (attempt + 1) * 10⟩ usage)
    ∧ (∀ (left attempt : Nat) (st : PState) (usage : Usage),
      env.attempts st.attemptCalls = ⟨[], none⟩ →
      ¬ attempt < mr - 1 →
      genAudioLoop env rd true mr (left + 1) attempt st usage
        = (⟨st.attemptCalls + 1, st.cancelChecks + 2⟩, .ok (none, usage)))
    ∧ (∀ (left attempt : Nat) (st : PState) (usage : Usage) (msg : String),
      env.attempts st.attemptCalls = ⟨[], some msg⟩ →
      (containsSub "429".data (lowerList msg.data)
        || containsSub "resource_exhausted".data (lowerList msg.data)) = false →
      ((containsSub "500".data (lowerList msg.data)
        || containsSub "503".data (lowerList msg.data)
        || containsSub "timeout".data (lowerList msg.data)) = false ∨ ¬ attempt < mr - 1) →
      genAudioLoop env rd roe mr (left + 1) attempt st usage
        = (⟨st.attemptCalls + 1, st.cancelChecks + 2⟩, .error (.generic msg))) :=
  ⟨fun left attempt st usage msg herr hsig =>
      genAudioLoop_rate env hc rd roe mr left attempt st usage msg herr hsig,
   fun left attempt st usage msg herr hnr htr hlast =>
      genAudioLoop_transient_retry env hc rd roe mr left attempt st usage msg herr hnr htr hlast,
   fun left attempt st usage herr hlast =>
      genAudioLoop_empty_final env hc rd mr left attempt st usage herr hlast,
   fun left attempt st usage msg herr hnr hnt =>
      genAudioLoop_generic env hc rd roe mr left attempt st usage msg herr hnr hnt⟩

/-- Witness for C3 at concrete transports: a 429 message, a 503 message off
the last attempt, an empty stream on the last attempt, and a generic
message. -/
theorem C3_error_classification_witness :
    ((genAudioLoop ⟨fun _ => ⟨[], some "HTTP 429"⟩, fun _ => false, fun _ => none⟩
        2 false 3 1 0 ⟨0, 0⟩ ⟨0, 0⟩).2 = .error (.rateLimit "HTTP 429")
      ∧ (genAudioLoop ⟨fun _ => ⟨[], some "HTTP 429"⟩, fun _ => false, fun _ => none⟩
        2 false 3 1 0 ⟨0, 0⟩ ⟨0, 0⟩).1.attemptCalls = 0 + 1)
    ∧ genAudioLoop ⟨fun _ => ⟨[], some "HTTP 503"⟩, fun _ => false, fun _ => none⟩
        2 false 3 3 0 ⟨0, 0⟩ ⟨0, 0⟩
      = genAudioLoop ⟨fun _ => ⟨[], some "HTTP 503"⟩, fun _ => false, fun _ => none⟩
        2 false 3 2 1 ⟨0 + 1, 0 + 2 + 2 * (0 + 1) * 10⟩ ⟨0, 0⟩
    ∧ genAudioLoop ⟨fun _ => ⟨[], none⟩, fun _ => false, fun _ => none⟩
        2 true 1 1 0 ⟨0, 0⟩ ⟨3, 4⟩
      = (⟨0 + 1, 0 + 2⟩, .ok (none, ⟨3, 4⟩))
    ∧ genAudioLoop ⟨fun _ => ⟨[], some "boom"⟩, fun _ => false, fun _ => none⟩
        2 false 3 1 0 ⟨0, 0⟩ ⟨0, 0⟩
      = (⟨0 + 1, 0 + 2⟩, .error (.generic "boom")) :=
  ⟨(C3_error_classification ⟨fun _ => ⟨[], some "HTTP 429"⟩, fun _ => false, fun _ => none⟩
      (fun _ => rfl) 2 false 3).1 0 0 ⟨0, 0⟩ ⟨0, 0⟩ "HTTP 429" rfl (by decide),
   (C3_error_classification ⟨fun _ => ⟨[], some "HTTP 503"⟩, fun _ => false, fun _ => none⟩
      (fun _ => rfl) 2 false 3).2.1 2 0 ⟨0, 0⟩ ⟨0, 0⟩ "HTTP 503" rfl (by decide) (by decide)
      (by norm_num),
   (C3_error_classification ⟨fun _ => ⟨[], none⟩, fun _ => false, fun _ => none⟩
      (fun _ => rfl) 2 true 1).2.2.1 0 0 ⟨0, 0⟩ ⟨3, 4⟩ rfl (by norm_num),
   (C3_error_classification ⟨fun _ => ⟨[], some "boom"⟩, fun _ => false, fun _ => none⟩
      (fun _ => rfl) 2 false 3).2.2.2 0 0 ⟨0, 0⟩ ⟨0, 0⟩ "boom" rfl (by decide)
      (Or.inl (by decide))⟩

theorem waitTicksW_no_cancel (env : WEnv) (hc : ∀ k, env.cancelAt k = false) :
    ∀ (t : Nat) (st : WState),
    waitTicksW env t st = { st with cancelChecks := st.cancelChecks + t }
  | 0, st => by simp [waitTicksW]
  | t + 1, st => by
    unfold waitTicksW readCancelW
    rw [hc st.cancelChecks]
    simp only [Bool.false_eq_true, if_false]
    rw [waitTicksW_no_cancel env hc t]
    have h1 : st.cancelChecks + 1 + t = st.cancelChecks + (t + 1) := by omega
    simp [h1]

theorem processMapping_call (env : WEnv) (hc : ∀ k, env.cancelAt k = false)
    (cfg : WConfig) (idx nid : Nat) (note : Note) (m : NTConfig) (st : WState)
    (hsrc : note.hasField m.source_field = true)
    (hskip : skipExistingHit cfg note m = false)
    (hclean : ¬ cleanText (note.getField m.source_field) = "") :
    processMapping env cfg idx nid note m st = mappingCallResult env cfg idx nid m st := by
  unfold processMapping
  simp only [hsrc, Bool.not_true, Bool.false_eq_true, if_false, hskip]
  rw [if_neg hclean]
  rw [show (if cfg.request_wait_pos then waitTicksW env cfg.request_wait_ticks st else st)
      = { st with cancelChecks :=
          st.cancelChecks + (if cfg.request_wait_pos then cfg.request_wait_ticks else 0) } from by
    cases hw : cfg.request_wait_pos
    · simp
    · simp [waitTicksW_no_cancel env hc]]
  unfold readCancelW
  rw [hc]
  simp only [Bool.false_eq_true, if_false]
  rfl

theorem gwf_audio_stats (penv : PEnv) (pst : PState) (text pm fm : String)
    (en : Bool) (mr rd : Nat) (roe : Bool)
    (h : pyTruthyBytes (generate_with_fallback penv pst text pm fm en mr rd roe).2.1 = true) :
    (generate_with_fallback penv pst text pm fm en mr rd roe).2.2.2.isSome = true := by
  unfold generate_with_fallback at h ⊢
  rcases hga : generate_audio penv pst text pm mr rd roe with ⟨st1, res⟩
  rw [hga] at h
  match res with
  | .ok (some audio, stats) =>
    by_cases he : audio.isEmpty <;> simp [he]
  | .ok (none, stats) => simp
  | .error (.rateLimit msg) =>
    simp only at h ⊢
    cases en with
    | false => simp [pyTruthyBytes] at h
    | true =>
      simp only [if_true] at h ⊢
      rcases hgb : generate_audio penv
          { st1 with cancelChecks := st1.cancelChecks + 1 } text fm mr rd roe with ⟨st3, res2⟩
      rw [hgb] at h
      match res2 with
      | .ok (some audio, stats) =>
        by_cases he : audio.isEmpty <;> simp [he]
      | .ok (none, stats) => simp
      | .error e => simp [pyTruthyBytes] at h
  | .error (.generic msg) => simp [pyTruthyBytes] at h

/-- C4: for a per-mapping orchestrator invocation (source field present,
no skip, non-empty cleaned text, never-cancelled flag), the session request
counter grows by exactly 1 when the result carries audio and by 0 when it
does not — the hypothesis that audio-bearing results carry a usage
dictionary is itself proved for every orchestrator run in the last
conjunct — and on success the returned usage is merged into the running
totals with a usage event emitted carrying the merged totals. -/
theorem C4_request_counter (env : WEnv) (hc : ∀ k, env.cancelAt k = false)
    (cfg : WConfig) (idx nid : Nat) (note : Note) (m : NTConfig) (st : WState)
    (hsrc : note.hasField m.source_field = true)
    (hskip : skipExistingHit cfg note m = false)
    (hclean : ¬ cleanText (note.getField m.source_field) = "")
    (hstats : pyTruthyBytes (env.orch st.orchCalls).audio = true →
      (env.orch st.orchCalls).stats.isSome = true) :
    ((processMapping env cfg idx nid note m st).1.total_requests
      = st.total_requests
        + (if pyTruthyBytes (env.orch st.orchCalls).audio then 1 else 0))
    ∧ (∀ u, (env.orch st.orchCalls).stats = some u →
        (processMapping env cfg idx nid note m st).1.total_input_tokens
          = st.total_input_tokens + u.input_tokens
        ∧ (processMapping env cfg idx nid note m st).1.total_output_tokens
          = st.total_output_tokens + u.output_tokens
        ∧ (WEvent.usage (st.total_input_tokens + u.input_tokens)
              (st.total_output_tokens + u.output_tokens),
            Snap.mk st.success_ops st.failed_ops st.skipped_ops
              (st.total_input_tokens + u.input_tokens)
              (st.total_output_tokens + u.output_tokens))
            ∈ (processMapping env cfg idx nid note m st).2.1)
    ∧ (∀ (penv : PEnv) (pst : PState) (text pm fm : String) (en : Bool)
        (mr rd : Nat) (roe : Bool),
        pyTruthyBytes (generate_with_fallback penv pst text pm fm en mr rd roe).2.1 = true →
        (generate_with_fallback penv pst text pm fm en mr rd roe).2.2.2.isSome = true) := by
  rw [processMapping_call env hc cfg idx nid note m st hsrc hskip hclean]
  refine ⟨?_, ?_, fun penv pst text pm fm en mr rd roe h =>
    gwf_audio_stats penv pst text pm fm en mr rd roe h⟩
  · unfold mappingCallResult
    dsimp only
    cases haud : pyTruthyBytes (env.orch st.orchCalls).audio with
    | false =>
      cases hstt : (env.orch st.orchCalls).stats with
      | none => simp [haud, hstt]
      | some u => simp [haud, hstt]
    | true =>
      have := hstats haud
      cases hstt : (env.orch st.orchCalls).stats with
      | none => rw [hstt] at this; simp at this
      | some u =>
        cases hsv : env.save st.saveCalls with
        | saved => simp [haud, hstt, hsv]
        | noteDeleted => simp [haud, hstt, hsv]
        | raised msg => simp [haud, hstt, hsv]
  · intro u hstt
    unfold mappingCallResult
    dsimp only
    cases haud : pyTruthyBytes (env.orch st.orchCalls).audio with
    | false =>
      simp [haud, hstt]
      exact Or.inr (Or.inl rfl)
    | true =>
      cases hsv : env.save st.saveCalls with
      | saved =>
        simp [haud, hstt, hsv]
        exact Or.inr (Or.inl rfl)
      | noteDeleted =>
        simp [haud, hstt, hsv]
        exact Or.inr (Or.inl rfl)
      | raised msg =>
        simp [haud, hstt, hsv]
        exact Or.inr (Or.inl rfl)

/-- Witness for C4 at a concrete audio-bearing orchestrator result. -/
theorem C4_request_counter_witness :
    ((processMapping
        ⟨fun _ => some (Note.mk "T" [("Front", "hello")]),
         fun _ => ⟨some [1, 2, 3], "model", some ⟨5, 7⟩⟩, fun _ => 0,
         fun _ => .saved, fun _ => false⟩
        ⟨[⟨"T", "Front", "Audio", true⟩], true, false, 0, false⟩ 0 1
        (Note.mk "T" [("Front", "hello")]) ⟨"T", "Front", "Audio", true⟩ initWState).1.total_requests
      = initWState.total_requests
        + (if pyTruthyBytes ((⟨fun _ => some (Note.mk "T" [("Front", "hello")]),
            fun _ => ⟨some [1, 2, 3], "model", some ⟨5, 7⟩⟩, fun _ => 0,
            fun _ => .saved, fun _ => false⟩ : WEnv).orch initWState.orchCalls).audio
            then 1 else 0))
    ∧ ((processMapping
          ⟨fun _ => some (Note.mk "T" [("Front", "hello")]),
           fun _ => ⟨some [1, 2, 3], "model", some ⟨5, 7⟩⟩, fun _ => 0,
           fun _ => .saved, fun _ => false⟩
          ⟨[⟨"T", "Front", "Audio", true⟩], true, false, 0, false⟩ 0 1
          (Note.mk "T" [("Front", "hello")]) ⟨"T", "Front", "Audio", true⟩ initWState).1.total_input_tokens
        = initWState.total_input_tokens + (Usage.mk 5 7).input_tokens
      ∧ (processMapping
          ⟨fun _ => some (Note.mk "T" [("Front", "hello")]),
           fun _ => ⟨some [1, 2, 3], "model", some ⟨5, 7⟩⟩, fun _ => 0,
           fun _ => .saved, fun _ => false⟩
          ⟨[⟨"T", "Front", "Audio", true⟩], true, false, 0, false⟩ 0 1
          (Note.mk "T" [("Front", "hello")]) ⟨"T", "Front", "Audio", true⟩ initWState).1.total_output_tokens
        = initWState.total_output_tokens + (Usage.mk 5 7).output_tokens
      ∧ (WEvent.usage (initWState.total_input_tokens + (Usage.mk 5 7).input_tokens)
            (initWState.total_output_tokens + (Usage.mk 5 7).output_tokens),
          Snap.mk initWState.success_ops initWState.failed_ops initWState.skipped_ops
            (initWState.total_input_tokens + (Usage.mk 5 7).input_tokens)
            (initWState.total_output_tokens + (Usage.mk 5 7).output_tokens))
          ∈ (processMapping
            ⟨fun _ => some (Note.mk "T" [("Front", "hello")]),
             fun _ => ⟨some [1, 2, 3], "model", some ⟨5, 7⟩⟩, fun _ => 0,
             fun _ => .saved, fun _ => false⟩
            ⟨[⟨"T", "Front", "Audio", true⟩], true, false, 0, false⟩ 0 1
            (Note.mk "T" [("Front", "hello")]) ⟨"T", "Front", "Audio", true⟩ initWState).2.1)
    ∧ (generate_with_fallback
        ⟨fun k => if k = 0 then ⟨[], some "429 quota exceeded"⟩
          else ⟨[⟨some (10, 20), some ([5, 6], some "audio/L16;rate=24000")⟩], none⟩,
         fun _ => false, fun _ => none⟩
        ⟨0, 0⟩ "hi" "pm" "fm" true 3 2 false).2.2.2.isSome = true :=
  ⟨(C4_request_counter
      ⟨fun _ => some (Note.mk "T" [("Front", "hello")]),
       fun _ => ⟨some [1, 2, 3], "model", some ⟨5, 7⟩⟩, fun _ => 0,
       fun _ => .saved, fun _ => false⟩
      (fun _ => rfl)
      ⟨[⟨"T", "Front", "Audio", true⟩], true, false, 0, false⟩ 0 1
      (Note.mk "T" [("Front", "hello")]) ⟨"T", "Front", "Audio", true⟩ initWState
      (by decide) (by decide) (by decide) (fun _ => rfl)).1,
   (C4_request_counter
      ⟨fun _ => some (Note.mk "T" [("Front", "hello")]),
       fun _ => ⟨some [1, 2, 3], "model", some ⟨5, 7⟩⟩, fun _ => 0,
       fun _ => .saved, fun _ => false⟩
      (fun _ => rfl)
      ⟨[⟨"T", "Front", "Audio", true⟩], true, false, 0, false⟩ 0 1
      (Note.mk "T" [("Front", "hello")]) ⟨"T", "Front", "Audio", true⟩ initWState
      (by decide) (by decide) (by decide) (fun _ => rfl)).2.1 ⟨5, 7⟩ rfl,
   (C4_request_counter
      ⟨fun _ => some (Note.mk "T" [("Front", "hello")]),
       fun _ => ⟨some [1, 2, 3], "model", some ⟨5, 7⟩⟩, fun _ => 0,
       fun _ => .saved, fun _ => false⟩
      (fun _ => rfl)
      ⟨[⟨"T", "Front", "Audio", true⟩], true, false, 0, false⟩ 0 1
      (Note.mk "T" [("Front", "hello")]) ⟨"T", "Front", "Audio", true⟩ initWState
      (by decide) (by decide) (by decide) (fun _ => rfl)).2.2
      ⟨fun k => if k = 0 then ⟨[], some "429 quota exceeded"⟩
        else ⟨[⟨some (10, 20), some ([5, 6], some "audio/L16;rate=24000")⟩], none⟩,
       fun _ => false, fun _ => none⟩
      ⟨0, 0⟩ "hi" "pm" "fm" true 3 2 false (by decide)⟩

/-- C6 amended: the consecutive-error counter is never reset by a skipped
mapping (existing-audio skip or empty-text skip leave it unchanged); it is
reset to zero exactly on an audio-bearing orchestrator result — immediately,
before the write-back attempt, so even a failed save leaves it at zero —
and a non-audio result increments it. -/
theorem C6_consecutive_reset (env : WEnv) (hc : ∀ k, env.cancelAt k = false)
    (cfg : WConfig) (idx nid : Nat) (note : Note) (m : NTConfig) (st : WState)
    (hsrc : note.hasField m.source_field = true) :
    (skipExistingHit cfg note m = true →
      (processMapping env cfg idx nid note m st).1.consecutive_errors
        = st.consecutive_errors
      ∧ (processMapping env cfg idx nid note m st).1.skipped_ops = st.skipped_ops + 1)
    ∧ (skipExistingHit cfg note m = false →
      cleanText (note.getField m.source_field) = "" →
      (processMapping env cfg idx nid note m st).1.consecutive_errors
        = st.consecutive_errors
      ∧ (processMapping env cfg idx nid note m st).1.skipped_ops = st.skipped_ops + 1)
    ∧ (skipExistingHit cfg note m = false →
      ¬ cleanText (note.getField m.source_field) = "" →
      pyTruthyBytes (env.orch st.orchCalls).audio = true →
      (processMapping env cfg idx nid note m st).1.consecutive_errors = 0)
    ∧ (skipExistingHit cfg note m = false →
      ¬ cleanText (note.getField m.source_field) = "" →
      pyTruthyBytes (env.orch st.orchCalls).audio = false →
      (processMapping env cfg idx nid note m st).1.consecutive_errors
        = st.consecutive_errors + 1) := by
  refine ⟨?_, ?_, ?_, ?_⟩
  · intro h
    unfold processMapping
    simp [hsrc, h]
  · intro h1 h2
    unfold processMapping
    simp [hsrc, h1, h2]
  · intro h1 h2 haud
    rw [processMapping_call env hc cfg idx nid note m st hsrc h1 h2]
    unfold mappingCallResult
    dsimp only
    cases hstt : (env.orch st.orchCalls).stats with
    | none =>
      cases hsv : env.save st.saveCalls with
      | saved => simp [haud, hstt, hsv]
      | noteDeleted => simp [haud, hstt, hsv]
      | raised msg => simp [haud, hstt, hsv]
    | some u =>
      cases hsv : env.save st.saveCalls with
      | saved => simp [haud, hstt, hsv]
      | noteDeleted => simp [haud, hstt, hsv]
      | raised msg => simp [haud, hstt, hsv]
  · intro h1 h2 haud
    rw [processMapping_call env hc cfg idx nid note m st hsrc h1 h2]
    unfold mappingCallResult
    dsimp only
    cases hstt : (env.orch st.orchCalls).stats with
    | none => simp [haud, hstt]
    | some u => simp [haud, hstt]

/-- C6 counterexample: a failure on the first record, then an audio success
whose save fails on the second.  No mapping ever fully succeeds (zero
success operations, two failures), yet the consecutive-error counter ends
at zero: it was reset by the audio success alone, before the failed save,
contradicting reset-only-on-full-mapping-level-success. -/
theorem C6_counterexample :
    (runWorker
      ⟨fun _ => some (Note.mk "T" [("Front", "hi")]),
       fun k => if k = 0 then ⟨none, "boom", none⟩ else ⟨some [1, 2, 3], "m", some ⟨5, 7⟩⟩,
       fun _ => 0, fun _ => .noteDeleted, fun _ => false⟩
      ⟨[⟨"T", "Front", "Audio", true⟩], true, false, 0, false⟩
      [1, 2]).1.consecutive_errors = 0
    ∧ (runWorker
      ⟨fun _ => some (Note.mk "T" [("Front", "hi")]),
       fun k => if k = 0 then ⟨none, "boom", none⟩ else ⟨some [1, 2, 3], "m", some ⟨5, 7⟩⟩,
       fun _ => 0, fun _ => .noteDeleted, fun _ => false⟩
      ⟨[⟨"T", "Front", "Audio", true⟩], true, false, 0, false⟩
      [1, 2]).1.success_ops = 0
    ∧ (runWorker
      ⟨fun _ => some (Note.mk "T" [("Front", "hi")]),
       fun k => if k = 0 then ⟨none, "boom", none⟩ else ⟨some [1, 2, 3], "m", some ⟨5, 7⟩⟩,
       fun _ => 0, fun _ => .noteDeleted, fun _ => false⟩
      ⟨[⟨"T", "Front", "Audio", true⟩], true, false, 0, false⟩
      [1, 2]).1.failed_ops = 2 := by
  refine ⟨?_, ?_, ?_⟩ <;> decide

/-- Witness for C6: an existing-audio skip and an empty-text skip leave a
nonzero counter unchanged; an audio result with a failing save resets it to
zero; a failing result increments it. -/
theorem C6_consecutive_reset_witness :
    ((processMapping
        ⟨fun _ => some (Note.mk "T" [("Front", "hi"), ("Audio", "[sound:x.wav]")]),
         fun _ => ⟨none, "boom", none⟩, fun _ => 0, fun _ => .saved, fun _ => false⟩
        ⟨[⟨"T", "Front", "Audio", true⟩], true, false, 0, false⟩ 0 1
        (Note.mk "T" [("Front", "hi"), ("Audio", "[sound:x.wav]")])
        ⟨"T", "Front", "Audio", true⟩ ⟨0, 0, 0, 3, 0, 0, 0, 0, 0, 0⟩).1.consecutive_errors
      = (⟨0, 0, 0, 3, 0, 0, 0, 0, 0, 0⟩ : WState).consecutive_errors
      ∧ (processMapping
        ⟨fun _ => some (Note.mk "T" [("Front", "hi"), ("Audio", "[sound:x.wav]")]),
         fun _ => ⟨none, "boom", none⟩, fun _ => 0, fun _ => .saved, fun _ => false⟩
        ⟨[⟨"T", "Front", "Audio", true⟩], true, false, 0, false⟩ 0 1
        (Note.mk "T" [("Front", "hi"), ("Audio", "[sound:x.wav]")])
        ⟨"T", "Front", "Audio", true⟩ ⟨0, 0, 0, 3, 0, 0, 0, 0, 0, 0⟩).1.skipped_ops
      = (⟨0, 0, 0, 3, 0, 0, 0, 0, 0, 0⟩ : WState).skipped_ops + 1)
    ∧ ((processMapping
        ⟨fun _ => some (Note.mk "T" [("Front", "<b></b>")]),
         fun _ => ⟨none, "boom", none⟩, fun _ => 0, fun _ => .saved, fun _ => false⟩
        ⟨[⟨"T", "Front", "Audio", true⟩], true, false, 0, false⟩ 0 1
        (Note.mk "T" [("Front", "<b></b>")])
        ⟨"T", "Front", "Audio", true⟩ ⟨0, 0, 0, 3, 0, 0, 0, 0, 0, 0⟩).1.consecutive_errors
      = (⟨0, 0, 0, 3, 0, 0, 0, 0, 0, 0⟩ : WState).consecutive_errors
      ∧ (processMapping
        ⟨fun _ => some (Note.mk "T" [("Front", "<b></b>")]),
         fun _ => ⟨none, "boom", none⟩, fun _ => 0, fun _ => .saved, fun _ => false⟩
        ⟨[⟨"T", "Front", "Audio", true⟩], true, false, 0, false⟩ 0 1
        (Note.mk "T" [("Front", "<b></b>")])
        ⟨"T", "Front", "Audio", true⟩ ⟨0, 0, 0, 3, 0, 0, 0, 0, 0, 0⟩).1.skipped_ops
      = (⟨0, 0, 0, 3, 0, 0, 0, 0, 0, 0⟩ : WState).skipped_ops + 1)
    ∧ (processMapping
        ⟨fun _ => some (Note.mk "T" [("Front", "hi")]),
         fun _ => ⟨some [1, 2, 3], "m", some ⟨5, 7⟩⟩, fun _ => 0,
         fun _ => .noteDeleted, fun _ => false⟩
        ⟨[⟨"T", "Front", "Audio", true⟩], true, false, 0, false⟩ 0 1
        (Note.mk "T" [("Front", "hi")])
        ⟨"T", "Front", "Audio", true⟩ ⟨0, 0, 0, 3, 0, 0, 0, 0, 0, 0⟩).1.consecutive_errors = 0
    ∧ (processMapping
        ⟨fun _ => some (Note.mk "T" [("Front", "hi")]),
         fun _ => ⟨none, "boom", none⟩, fun _ => 0, fun _ => .saved, fun _ => false⟩
        ⟨[⟨"T", "Front", "Audio", true⟩], true, false, 0, false⟩ 0 1
        (Note.mk "T" [("Front", "hi")])
        ⟨"T", "Front", "Audio", true⟩ ⟨0, 0, 0, 3, 0, 0, 0, 0, 0, 0⟩).1.consecutive_errors
      = (⟨0, 0, 0, 3, 0, 0, 0, 0, 0, 0⟩ : WState).consecutive_errors + 1 :=
  ⟨(C6_consecutive_reset
      ⟨fun _ => some (Note.mk "T" [("Front", "hi"), ("Audio", "[sound:x.wav]")]),
       fun _ => ⟨none, "boom", none⟩, fun _ => 0, fun _ => .saved, fun _ => false⟩
      (fun _ => rfl)
      ⟨[⟨"T", "Front", "Audio", true⟩], true, false, 0, false⟩ 0 1
      (Note.mk "T" [("Front", "hi"), ("Audio", "[sound:x.wav]")])
      ⟨"T", "Front", "Audio", true⟩ ⟨0, 0, 0, 3, 0, 0, 0, 0, 0, 0⟩ (by decide)).1 (by decide),
   (C6_consecutive_reset
      ⟨fun _ => some (Note.mk "T" [("Front", "<b></b>")]),
       fun _ => ⟨none, "boom", none⟩, fun _ => 0, fun _ => .saved, fun _ => false⟩
      (fun _ => rfl)
      ⟨[⟨"T", "Front", "Audio", true⟩], true, false, 0, false⟩ 0 1
      (Note.mk "T" [("Front", "<b></b>")])
      ⟨"T", "Front", "Audio", true⟩ ⟨0, 0, 0, 3, 0, 0, 0, 0, 0, 0⟩ (by decide)).2.1
      (by decide) (by decide),
   (C6_consecutive_reset
      ⟨fun _ => some (Note.mk "T" [("Front", "hi")]),
       fun _ => ⟨some [1, 2, 3], "m", some ⟨5, 7⟩⟩, fun _ => 0,
       fun _ => .noteDeleted, fun _ => false⟩
      (fun _ => rfl)
      ⟨[⟨"T", "Front", "Audio", true⟩], true, false, 0, false⟩ 0 1
      (Note.mk "T" [("Front", "hi")])
      ⟨"T", "Front", "Audio", true⟩ ⟨0, 0, 0, 3, 0, 0, 0, 0, 0, 0⟩ (by decide)).2.2.1
      (by decide) (by decide) (by decide),
   (C6_consecutive_reset
      ⟨fun _ => some (Note.mk "T" [("Front", "hi")]),
       fun _ => ⟨none, "boom", none⟩, fun _ => 0, fun _ => .saved, fun _ => false⟩
      (fun _ => rfl)
      ⟨[⟨"T", "Front", "Audio", true⟩], true, false, 0, false⟩ 0 1
      (Note.mk "T" [("Front", "hi")])
      ⟨"T", "Front", "Audio", true⟩ ⟨0, 0, 0, 3, 0, 0, 0, 0, 0, 0⟩ (by decide)).2.2.2
      (by decide) (by decide) (by decide)⟩

set_option maxHeartbeats 2000000 in
theorem processMapping_fresh (env : WEnv) (cfg : WConfig) (idx nid : Nat)
    (note : Note) (m : NTConfig) (st : WState) :
    ∀ e ∈ (processMapping env cfg idx nid note m st).2.1, eventFresh e := by
  intro e he
  unfold processMapping at he
  dsimp only at he
  repeat' split at he
  all_goals simp only [List.append_eq, List.nil_append, List.append_nil, List.cons_append,
    List.singleton_append, List.mem_append, List.mem_cons, List.mem_singleton,
    List.not_mem_nil, or_false, false_or] at he
  all_goals rcases he with rfl | rfl | rfl <;> simp [eventFresh, emitEv]

theorem runMappings_fresh (env : WEnv) (cfg : WConfig) (idx nid : Nat)
    (note : Note) : ∀ (ms : List NTConfig) (st : WState),
    ∀ e ∈ (runMappings env cfg idx nid note ms st).2.1, eventFresh e := by
  intro ms
  induction ms with
  | nil => intro st e he; simp [runMappings] at he
  | cons m rest ih =>
    intro st e he
    rw [runMappings] at he
    dsimp only [readCancelW] at he
    split at he
    · simp at he
    · split at he
      · exact processMapping_fresh env cfg idx nid note m _ e he
      · rcases List.mem_append.mp he with h1 | h1
        · exact processMapping_fresh env cfg idx nid note m _ e h1
        · exact ih _ e h1

theorem runNotes_fresh (env : WEnv) (cfg : WConfig) :
    ∀ (ids : List Nat) (idx : Nat) (st : WState),
    ∀ e ∈ (runNotes env cfg ids idx st).2, eventFresh e := by
  intro ids
  induction ids with
  | nil => intro idx st e he; simp [runNotes] at he
  | cons nid rest ih =>
    intro idx st e he
    rw [runNotes] at he
    dsimp only [readCancelW] at he
    split at he
    · simp at he
      subst he
      simp [eventFresh, emitEv]
    · split at he
      · simp at he
        subst he
        simp [eventFresh, emitEv]
      · split at he
        · rcases List.mem_append.mp he with h1 | h1
          · split at h1
            · simp at h1
              subst h1
              simp [eventFresh, emitEv]
            · simp at h1
          · exact ih _ _ e h1
        · split at he
          · exact ih _ _ e he
          · rcases List.mem_append.mp he with h1 | h1
            · rcases List.mem_append.mp h1 with h2 | h2
              · exact runMappings_fresh env cfg _ nid _ _ _ e h2
              · simp at h2
                subst h2
                simp [eventFresh, emitEv]
            · exact ih _ _ e h1

theorem runWorker_fresh (env : WEnv) (cfg : WConfig) (ids : List Nat) :
    ∀ e ∈ (runWorker env cfg ids).2, eventFresh e := by
  intro e he
  unfold runWorker at he
  dsimp only at he
  rcases List.mem_append.mp he with h1 | h1
  · exact runNotes_fresh env cfg ids 0 initWState e h1
  · simp at h1
    subst h1
    simp [eventFresh, emitEv]

theorem runNotes_progress_eq (env : WEnv) (cfg : WConfig) (nid : Nat)
    (rest : List Nat) (idx : Nat) (st : WState) (note : Note)
    (hc : env.cancelAt st.cancelChecks = false)
    (hce : st.consecutive_errors < 5)
    (hn : env.getNote nid = some note)
    (hm : noteTypeMapOf cfg note.typeName ≠ []) :
    runNotes env cfg (nid :: rest) idx st =
      ((runNotes env cfg rest (idx + 1)
          (runMappings env cfg idx nid note (noteTypeMapOf cfg note.typeName)
            { st with cancelChecks := st.cancelChecks + 1 }).1).1,
       (runMappings env cfg idx nid note (noteTypeMapOf cfg note.typeName)
            { st with cancelChecks := st.cancelChecks + 1 }).2.1
         ++ [emitEv (runMappings env cfg idx nid note (noteTypeMapOf cfg note.typeName)
              { st with cancelChecks := st.cancelChecks + 1 }).1
             (.progress (idx + 1) "Waiting..."
               (runMappings env cfg idx nid note (noteTypeMapOf cfg note.typeName)
                 { st with cancelChecks := st.cancelChecks + 1 }).1.success_ops
               (runMappings env cfg idx nid note (noteTypeMapOf cfg note.typeName)
                 { st with cancelChecks := st.cancelChecks + 1 }).1.failed_ops
               (runMappings env cfg idx nid note (noteTypeMapOf cfg note.typeName)
                 { st with cancelChecks := st.cancelChecks + 1 }).1.skipped_ops)]
         ++ (runNotes env cfg rest (idx + 1)
              (runMappings env cfg idx nid note (noteTypeMapOf cfg note.typeName)
                { st with cancelChecks := st.cancelChecks + 1 }).1).2) := by
  rw [runNotes]
  dsimp only [readCancelW]
  rw [hc, hn]
  rw [if_neg (by simp), if_neg (Nat.not_le.mpr hce)]
  dsimp only
  rw [if_neg (by simp [hm])]

/-- C5 (amended): progress and event freshness in TTSWorker.run.  (1) A
record whose note resolves and whose type has an enabled mapping gets a
progress event emitted after its mapping loop, carrying the running
success/failed/skipped counts of the state the loop produced — but records
skipped by the continue paths (deleted note, unmapped type) get no
progress event, contrary to for-every-record.  (2) Every count-carrying
event in any run (progress, usage, finished) is fresh: its payload equals
the counters at emission time, so those events never show a stale count.
(3) The missing-field log, however, is emitted before the failure counter
update (batch_handler.py line 235 precedes line 236): its snapshot carries
the pre-increment failed count while the resulting state has failed_ops
incremented. -/
theorem C5_progress_and_freshness :
    (∀ (env : WEnv) (cfg : WConfig) (nid : Nat) (rest : List Nat) (idx : Nat)
       (st : WState) (note : Note),
       env.cancelAt st.cancelChecks = false →
       st.consecutive_errors < 5 →
       env.getNote nid = some note →
       noteTypeMapOf cfg note.typeName ≠ [] →
       runNotes env cfg (nid :: rest) idx st =
         ((runNotes env cfg rest (idx + 1)
             (runMappings env cfg idx nid note (noteTypeMapOf cfg note.typeName)
               { st with cancelChecks := st.cancelChecks + 1 }).1).1,
          (runMappings env cfg idx nid note (noteTypeMapOf cfg note.typeName)
               { st with cancelChecks := st.cancelChecks + 1 }).2.1
            ++ [emitEv (runMappings env cfg idx nid note (noteTypeMapOf cfg note.typeName)
                 { st with cancelChecks := st.cancelChecks + 1 }).1
                (.progress (idx + 1) "Waiting..."
                  (runMappings env cfg idx nid note (noteTypeMapOf cfg note.typeName)
                    { st with cancelChecks := st.cancelChecks + 1 }).1.success_ops
                  (runMappings env cfg idx nid note (noteTypeMapOf cfg note.typeName)
                    { st with cancelChecks := st.cancelChecks + 1 }).1.failed_ops
                  (runMappings env cfg idx nid note (noteTypeMapOf cfg note.typeName)
                    { st with cancelChecks := st.cancelChecks + 1 }).1.skipped_ops)]
            ++ (runNotes env cfg rest (idx + 1)
                 (runMappings env cfg idx nid note (noteTypeMapOf cfg note.typeName)
                   { st with cancelChecks := st.cancelChecks + 1 }).1).2))
    ∧ (∀ (env : WEnv) (cfg : WConfig) (ids : List Nat),
       ∀ e ∈ (runWorker env cfg ids).2, eventFresh e)
    ∧ (∀ (env : WEnv) (cfg : WConfig) (idx nid : Nat) (note : Note) (m : NTConfig)
       (st : WState), note.hasField m.source_field = false →
       processMapping env cfg idx nid note m st =
         ({ st with failed_ops := st.failed_ops + 1 },
          [(WEvent.log (LogMsg.fieldMissing nid m.source_field),
            ⟨st.success_ops, st.failed_ops, st.skipped_ops,
             st.total_input_tokens, st.total_output_tokens⟩)], false)) := by
  refine ⟨?_, runWorker_fresh, ?_⟩
  · intro env cfg nid rest idx st note hc hce hn hm
    exact runNotes_progress_eq env cfg nid rest idx st note hc hce hn hm
  · intro env cfg idx nid note m st hf
    unfold processMapping
    simp [hf, emitEv]

/-- C5 counterexample: (1) a one-record batch whose note was deleted
completes the record but the whole trace is just the terminal summary — no
progress event is ever emitted for it, refuting progress-after-every-record
(the continue at batch_handler.py line 221 bypasses line 337); (2) a
one-record batch whose note lacks the source field emits the missing-field
log whose snapshot shows failed = 0 while the run ends with failed = 1 —
the log precedes the counter update, refuting
every-event-strictly-after-the-corresponding-counter-update. -/
theorem C5_counterexample :
    (runWorker
       ⟨fun _ => none, fun _ => ⟨none, "", none⟩, fun _ => 0,
        fun _ => .saved, fun _ => false⟩
       ⟨[⟨"T", "Front", "Audio", true⟩], false, false, 0, false⟩
       [1]).2 = [(WEvent.finished 0 0 0 0 0 0, ⟨0, 0, 0, 0, 0⟩)]
    ∧ (WEvent.log (LogMsg.fieldMissing 1 "Front"), ⟨0, 0, 0, 0, 0⟩)
        ∈ (runWorker
            ⟨fun _ => some (Note.mk "T" [("Other", "x")]), fun _ => ⟨none, "", none⟩,
             fun _ => 0, fun _ => .saved, fun _ => false⟩
            ⟨[⟨"T", "Front", "Audio", true⟩], false, false, 0, false⟩
            [1]).2
    ∧ (runWorker
        ⟨fun _ => some (Note.mk "T" [("Other", "x")]), fun _ => ⟨none, "", none⟩,
         fun _ => 0, fun _ => .saved, fun _ => false⟩
        ⟨[⟨"T", "Front", "Audio", true⟩], false, false, 0, false⟩
        [1]).1.failed_ops = 1 := by
  refine ⟨?_, ?_, ?_⟩ <;> decide

/-- Witness for C5: a one-record run whose single mapping fails yields the
generating-progress, error-log and waiting-progress events with their
snapshots; the waiting-progress event of the missing-field run is fresh;
and the missing-field mapping produces exactly the stale-snapshot log. -/
theorem C5_progress_and_freshness_witness :
    runNotes
        ⟨fun _ => some (Note.mk "T" [("Front", "hi")]), fun _ => ⟨none, "e", none⟩,
         fun _ => 0, fun _ => .saved, fun _ => false⟩
        ⟨[⟨"T", "Front", "Audio", true⟩], false, false, 0, false⟩
        [1] 0 initWState =
      (⟨0, 1, 0, 1, 0, 0, 0, 1, 0, 3⟩,
       [(WEvent.progress 1 "Generating Front..." 0 0 0, ⟨0, 0, 0, 0, 0⟩),
        (WEvent.log (LogMsg.apiError 1 "Front" (DisplayErr.formatted "e")), ⟨0, 1, 0, 0, 0⟩),
        (WEvent.progress 1 "Waiting..." 0 1 0, ⟨0, 1, 0, 0, 0⟩)])
    ∧ eventFresh (WEvent.progress 1 "Waiting..." 0 1 0, ⟨0, 1, 0, 0, 0⟩)
    ∧ processMapping
        ⟨fun _ => some (Note.mk "T" [("Other", "x")]), fun _ => ⟨none, "", none⟩,
         fun _ => 0, fun _ => .saved, fun _ => false⟩
        ⟨[⟨"T", "Front", "Audio", true⟩], false, false, 0, false⟩ 0 1
        (Note.mk "T" [("Other", "x")]) ⟨"T", "Front", "Audio", true⟩ initWState =
      (⟨0, 1, 0, 0, 0, 0, 0, 0, 0, 0⟩,
       [(WEvent.log (LogMsg.fieldMissing 1 "Front"), ⟨0, 0, 0, 0, 0⟩)], false) := by
  refine ⟨?_, ?_, ?_⟩
  · exact (C5_progress_and_freshness.1
      ⟨fun _ => some (Note.mk "T" [("Front", "hi")]), fun _ => ⟨none, "e", none⟩,
       fun _ => 0, fun _ => .saved, fun _ => false⟩
      ⟨[⟨"T", "Front", "Audio", true⟩], false, false, 0, false⟩
      1 [] 0 initWState (Note.mk "T" [("Front", "hi")])
      rfl (by decide) rfl (by decide)).trans (by decide)
  · exact C5_progress_and_freshness.2.1
      ⟨fun _ => some (Note.mk "T" [("Other", "x")]), fun _ => ⟨none, "", none⟩,
       fun _ => 0, fun _ => .saved, fun _ => false⟩
      ⟨[⟨"T", "Front", "Audio", true⟩], false, false, 0, false⟩
      [1] (WEvent.progress 1 "Waiting..." 0 1 0, ⟨0, 1, 0, 0, 0⟩) (by decide)
  · exact C5_progress_and_freshness.2.2
      ⟨fun _ => some (Note.mk "T" [("Other", "x")]), fun _ => ⟨none, "", none⟩,
       fun _ => 0, fun _ => .saved, fun _ => false⟩
      ⟨[⟨"T", "Front", "Audio", true⟩], false, false, 0, false⟩
      0 1 (Note.mk "T" [("Other", "x")]) ⟨"T", "Front", "Audio", true⟩ initWState rfl

theorem runNotes_cancel_stop (env : WEnv) (cfg : WConfig) (nid : Nat)
    (rest : List Nat) (idx : Nat) (st : WState)
    (hc : env.cancelAt st.cancelChecks = true) :
    runNotes env cfg (nid :: rest) idx st =
      ({ st with cancelChecks := st.cancelChecks + 1 },
       [emitEv { st with cancelChecks := st.cancelChecks + 1 } (.log .cancelled)]) := by
  rw [runNotes]
  dsimp only [readCancelW]
  rw [hc]
  simp

theorem runMappings_cancel_stop (env : WEnv) (cfg : WConfig) (idx nid : Nat)
    (note : Note) (m : NTConfig) (rest : List NTConfig) (st : WState)
    (hc : env.cancelAt st.cancelChecks = true) :
    runMappings env cfg idx nid note (m :: rest) st =
      ({ st with cancelChecks := st.cancelChecks + 1 }, [], true) := by
  rw [runMappings]
  dsimp only [readCancelW]
  rw [hc]
  simp

theorem runNotes_abort_stop (env : WEnv) (cfg : WConfig) (nid : Nat)
    (rest : List Nat) (idx : Nat) (st : WState)
    (hc : env.cancelAt st.cancelChecks = false)
    (hce : 5 ≤ st.consecutive_errors) :
    runNotes env cfg (nid :: rest) idx st =
      ({ st with cancelChecks := st.cancelChecks + 1 },
       [emitEv { st with cancelChecks := st.cancelChecks + 1 } (.log .abortErrors)]) := by
  rw [runNotes]
  dsimp only [readCancelW]
  rw [hc]
  simp [hce]

theorem runMappings_single (env : WEnv) (hc : ∀ k, env.cancelAt k = false)
    (cfg : WConfig) (idx nid : Nat) (note : Note) (m : NTConfig) (st : WState) :
    runMappings env cfg idx nid note [m] st =
      processMapping env cfg idx nid note m { st with cancelChecks := st.cancelChecks + 1 } := by
  rw [runMappings]
  dsimp only [readCancelW]
  rw [hc]
  simp only [Bool.false_eq_true, if_false, runMappings, List.append_nil]
  split
  · rename_i h
    rw [← h]
  · rename_i h
    rw [Bool.not_eq_true] at h
    rw [← h]

theorem processMapping_fail_fields (env : WEnv) (hc : ∀ k, env.cancelAt k = false)
    (cfg : WConfig) (idx nid : Nat) (note : Note) (m : NTConfig) (st : WState)
    (hsrc : note.hasField m.source_field = true)
    (hsk : skipExistingHit cfg note m = false)
    (hcl : ¬ cleanText (note.getField m.source_field) = "")
    (ha : pyTruthyBytes (env.orch st.orchCalls).audio = false) :
    (processMapping env cfg idx nid note m st).1.failed_ops = st.failed_ops + 1
    ∧ (processMapping env cfg idx nid note m st).1.success_ops = st.success_ops
    ∧ (processMapping env cfg idx nid note m st).1.skipped_ops = st.skipped_ops
    ∧ (processMapping env cfg idx nid note m st).1.consecutive_errors
        = st.consecutive_errors + 1
    ∧ (processMapping env cfg idx nid note m st).2.2 = false := by
  rw [processMapping_call env hc cfg idx nid note m st hsrc hsk hcl]
  unfold mappingCallResult
  dsimp only
  cases hstt : (env.orch st.orchCalls).stats with
  | none => simp [ha, hstt]
  | some u => simp [ha, hstt]

theorem runNotes_allfail_counts (env : WEnv) (cfg : WConfig) (note : Note) (m : NTConfig)
    (hc : ∀ k, env.cancelAt k = false)
    (hn : ∀ nid, env.getNote nid = some note)
    (hm : noteTypeMapOf cfg note.typeName = [m])
    (hsrc : note.hasField m.source_field = true)
    (hsk : skipExistingHit cfg note m = false)
    (hcl : ¬ cleanText (note.getField m.source_field) = "")
    (ha : ∀ k, pyTruthyBytes (env.orch k).audio = false) :
    ∀ (ids : List Nat) (idx : Nat) (st : WState), st.consecutive_errors ≤ 5 →
    (runNotes env cfg ids idx st).1.failed_ops
        = st.failed_ops + min (5 - st.consecutive_errors) ids.length
    ∧ (runNotes env cfg ids idx st).1.success_ops = st.success_ops
    ∧ (runNotes env cfg ids idx st).1.skipped_ops = st.skipped_ops := by
  intro ids
  induction ids with
  | nil =>
    intro idx st hle
    simp [runNotes]
  | cons nid rest ih =>
    intro idx st hle
    by_cases hge : 5 ≤ st.consecutive_errors
    · rw [runNotes_abort_stop env cfg nid rest idx st (hc _) hge]
      have h0 : 5 - st.consecutive_errors = 0 := by omega
      simp [h0]
    · have hce2 : st.consecutive_errors < 5 := by omega
      have hmne : noteTypeMapOf cfg note.typeName ≠ [] := by rw [hm]; simp
      rw [runNotes_progress_eq env cfg nid rest idx st note (hc _) hce2 (hn nid) hmne]
      dsimp only
      rw [hm, runMappings_single env hc cfg idx nid note m]
      obtain ⟨hf1, hs1, hk1, hcons1, -⟩ := processMapping_fail_fields env hc cfg idx nid note m
        { st with cancelChecks := st.cancelChecks + 1 + 1 } hsrc hsk hcl (ha _)
      obtain ⟨gf, gs, gk⟩ := ih (idx + 1) (processMapping env cfg idx nid note m
        { st with cancelChecks := st.cancelChecks + 1 + 1 }).1
        (by rw [hcons1]; dsimp only; omega)
      refine ⟨?_, ?_, ?_⟩
      · rw [gf, hf1, hcons1]
        dsimp only
        simp only [List.length_cons]
        omega
      · rw [gs, hs1]
      · rw [gk, hk1]

/-- C1 (amended): abort conditions in TTSWorker.run.  A set cancellation
flag stops the whole batch at the next record boundary (and also at the
next mapping boundary), preserving all counters except the flag-read
cursor and emitting only the cancellation log; the consecutive-error
threshold of 5 stops the whole batch too but is tested only before each
record, not before each mapping; consequently, under a synthesis client
that always fails, with every record resolving to the same note whose
type has exactly one enabled mapping that is never skipped, the failed
count grows by min (5 - current streak) (number of records) while success
and skipped counts are untouched — exactly 5 plus prior failures for a
fresh streak over at least five records — whereas a note type with
several enabled mappings can push the failed count past the threshold
within a single record. -/
theorem C1_abort_conditions :
    (∀ (env : WEnv) (cfg : WConfig) (nid : Nat) (rest : List Nat) (idx : Nat)
       (st : WState), env.cancelAt st.cancelChecks = true →
       runNotes env cfg (nid :: rest) idx st =
         ({ st with cancelChecks := st.cancelChecks + 1 },
          [emitEv { st with cancelChecks := st.cancelChecks + 1 } (.log .cancelled)]))
    ∧ (∀ (env : WEnv) (cfg : WConfig) (idx nid : Nat) (note : Note) (m : NTConfig)
       (rest : List NTConfig) (st : WState), env.cancelAt st.cancelChecks = true →
       runMappings env cfg idx nid note (m :: rest) st =
         ({ st with cancelChecks := st.cancelChecks + 1 }, [], true))
    ∧ (∀ (env : WEnv) (cfg : WConfig) (nid : Nat) (rest : List Nat) (idx : Nat)
       (st : WState), env.cancelAt st.cancelChecks = false →
       5 ≤ st.consecutive_errors →
       runNotes env cfg (nid :: rest) idx st =
         ({ st with cancelChecks := st.cancelChecks + 1 },
          [emitEv { st with cancelChecks := st.cancelChecks + 1 } (.log .abortErrors)]))
    ∧ (∀ (env : WEnv) (cfg : WConfig) (note : Note) (m : NTConfig),
       (∀ k, env.cancelAt k = false) →
       (∀ nid, env.getNote nid = some note) →
       noteTypeMapOf cfg note.typeName = [m] →
       note.hasField m.source_field = true →
       skipExistingHit cfg note m = false →
       ¬ cleanText (note.getField m.source_field) = "" →
       (∀ k, pyTruthyBytes (env.orch k).audio = false) →
       ∀ (ids : List Nat) (idx : Nat) (st : WState), st.consecutive_errors ≤ 5 →
       (runNotes env cfg ids idx st).1.failed_ops
           = st.failed_ops + min (5 - st.consecutive_errors) ids.length
       ∧ (runNotes env cfg ids idx st).1.success_ops = st.success_ops
       ∧ (runNotes env cfg ids idx st).1.skipped_ops = st.skipped_ops) := by
  refine ⟨?_, ?_, ?_, ?_⟩
  · intro env cfg nid rest idx st hc
    exact runNotes_cancel_stop env cfg nid rest idx st hc
  · intro env cfg idx nid note m rest st hc
    exact runMappings_cancel_stop env cfg idx nid note m rest st hc
  · intro env cfg nid rest idx st hc hce
    exact runNotes_abort_stop env cfg nid rest idx st hc hce
  · intro env cfg note m hc hn hm hsrc hsk hcl ha
    exact runNotes_allfail_counts env cfg note m hc hn hm hsrc hsk hcl ha

/-- C1 counterexample: a note type with six enabled mappings and an
always-failing synthesis client.  The first record runs all six mappings —
the 5-error threshold is never tested between mappings — so the batch ends
with failed = 6, not 5 plus the zero failures accrued before the streak;
the abort log does appear, but only at the second record's boundary, with
the count already at 6. -/
theorem C1_counterexample :
    (runWorker
       ⟨fun _ => some (Note.mk "T"
           [("f1", "a"), ("f2", "a"), ("f3", "a"), ("f4", "a"), ("f5", "a"), ("f6", "a")]),
        fun _ => ⟨none, "b", none⟩, fun _ => 0, fun _ => .saved, fun _ => false⟩
       ⟨[⟨"T", "f1", "g1", true⟩, ⟨"T", "f2", "g2", true⟩, ⟨"T", "f3", "g3", true⟩,
         ⟨"T", "f4", "g4", true⟩, ⟨"T", "f5", "g5", true⟩, ⟨"T", "f6", "g6", true⟩],
        false, false, 0, false⟩
       [1, 2]).1.failed_ops = 6
    ∧ (WEvent.log LogMsg.abortErrors, ⟨0, 6, 0, 0, 0⟩)
        ∈ (runWorker
            ⟨fun _ => some (Note.mk "T"
                [("f1", "a"), ("f2", "a"), ("f3", "a"), ("f4", "a"), ("f5", "a"), ("f6", "a")]),
             fun _ => ⟨none, "b", none⟩, fun _ => 0, fun _ => .saved, fun _ => false⟩
            ⟨[⟨"T", "f1", "g1", true⟩, ⟨"T", "f2", "g2", true⟩, ⟨"T", "f3", "g3", true⟩,
              ⟨"T", "f4", "g4", true⟩, ⟨"T", "f5", "g5", true⟩, ⟨"T", "f6", "g6", true⟩],
             false, false, 0, false⟩
            [1, 2]).2 := by
  refine ⟨?_, ?_⟩ <;> decide

/-- Witness for C1: a set flag stops a one-record batch at the record
boundary and a one-mapping loop at the mapping boundary; a streak of five
errors aborts the next record while keeping three earlier failures; and an
always-failing client over seven fresh single-mapping records ends with
exactly five failures and no successes or skips. -/
theorem C1_abort_conditions_witness :
    runNotes
        ⟨fun _ => some (Note.mk "T" [("Front", "hi")]), fun _ => ⟨none, "b", none⟩,
         fun _ => 0, fun _ => .saved, fun _ => true⟩
        ⟨[⟨"T", "Front", "Audio", true⟩], false, false, 0, false⟩ [1] 0 initWState =
      (⟨0, 0, 0, 0, 0, 0, 0, 0, 0, 1⟩,
       [(WEvent.log LogMsg.cancelled, ⟨0, 0, 0, 0, 0⟩)])
    ∧ runMappings
        ⟨fun _ => some (Note.mk "T" [("Front", "hi")]), fun _ => ⟨none, "b", none⟩,
         fun _ => 0, fun _ => .saved, fun _ => true⟩
        ⟨[⟨"T", "Front", "Audio", true⟩], false, false, 0, false⟩ 0 1
        (Note.mk "T" [("Front", "hi")]) [⟨"T", "Front", "Audio", true⟩] initWState =
      (⟨0, 0, 0, 0, 0, 0, 0, 0, 0, 1⟩, [], true)
    ∧ runNotes
        ⟨fun _ => some (Note.mk "T" [("Front", "hi")]), fun _ => ⟨none, "b", none⟩,
         fun _ => 0, fun _ => .saved, fun _ => false⟩
        ⟨[⟨"T", "Front", "Audio", true⟩], false, false, 0, false⟩ [9] 2
        ⟨0, 3, 0, 5, 0, 0, 0, 0, 0, 0⟩ =
      (⟨0, 3, 0, 5, 0, 0, 0, 0, 0, 1⟩,
       [(WEvent.log LogMsg.abortErrors, ⟨0, 3, 0, 0, 0⟩)])
    ∧ (runNotes
        ⟨fun _ => some (Note.mk "T" [("Front", "hi")]), fun _ => ⟨none, "b", none⟩,
         fun _ => 0, fun _ => .saved, fun _ => false⟩
        ⟨[⟨"T", "Front", "Audio", true⟩], false, false, 0, false⟩
        [1, 2, 3, 4, 5, 6, 7] 0 initWState).1.failed_ops = 5
    ∧ (runNotes
        ⟨fun _ => some (Note.mk "T" [("Front", "hi")]), fun _ => ⟨none, "b", none⟩,
         fun _ => 0, fun _ => .saved, fun _ => false⟩
        ⟨[⟨"T", "Front", "Audio", true⟩], false, false, 0, false⟩
        [1, 2, 3, 4, 5, 6, 7] 0 initWState).1.success_ops = 0
    ∧ (runNotes
        ⟨fun _ => some (Note.mk "T" [("Front", "hi")]), fun _ => ⟨none, "b", none⟩,
         fun _ => 0, fun _ => .saved, fun _ => false⟩
        ⟨[⟨"T", "Front", "Audio", true⟩], false, false, 0, false⟩
        [1, 2, 3, 4, 5, 6, 7] 0 initWState).1.skipped_ops = 0 := by
  refine ⟨?_, ?_, ?_, ?_, ?_, ?_⟩
  · exact C1_abort_conditions.1
      ⟨fun _ => some (Note.mk "T" [("Front", "hi")]), fun _ => ⟨none, "b", none⟩,
       fun _ => 0, fun _ => .saved, fun _ => true⟩
      ⟨[⟨"T", "Front", "Audio", true⟩], false, false, 0, false⟩ 1 [] 0 initWState rfl
  · exact C1_abort_conditions.2.1
      ⟨fun _ => some (Note.mk "T" [("Front", "hi")]), fun _ => ⟨none, "b", none⟩,
       fun _ => 0, fun _ => .saved, fun _ => true⟩
      ⟨[⟨"T", "Front", "Audio", true⟩], false, false, 0, false⟩ 0 1
      (Note.mk "T" [("Front", "hi")]) ⟨"T", "Front", "Audio", true⟩ [] initWState rfl
  · exact C1_abort_conditions.2.2.1
      ⟨fun _ => some (Note.mk "T" [("Front", "hi")]), fun _ => ⟨none, "b", none⟩,
       fun _ => 0, fun _ => .saved, fun _ => false⟩
      ⟨[⟨"T", "Front", "Audio", true⟩], false, false, 0, false⟩ 9 [] 2
      ⟨0, 3, 0, 5, 0, 0, 0, 0, 0, 0⟩ rfl (by decide)
  · exact ((C1_abort_conditions.2.2.2
      ⟨fun _ => some (Note.mk "T" [("Front", "hi")]), fun _ => ⟨none, "b", none⟩,
       fun _ => 0, fun _ => .saved, fun _ => false⟩
      ⟨[⟨"T", "Front", "Audio", true⟩], false, false, 0, false⟩
      (Note.mk "T" [("Front", "hi")]) ⟨"T", "Front", "Audio", true⟩
      (fun _ => rfl) (fun _ => rfl) (by decide) (by decide) (by decide) (by decide)
      (fun _ => rfl) [1, 2, 3, 4, 5, 6, 7] 0 initWState (by decide)).1).trans (by decide)
  · exact (C1_abort_conditions.2.2.2
      ⟨fun _ => some (Note.mk "T" [("Front", "hi")]), fun _ => ⟨none, "b", none⟩,
       fun _ => 0, fun _ => .saved, fun _ => false⟩
      ⟨[⟨"T", "Front", "Audio", true⟩], false, false, 0, false⟩
      (Note.mk "T" [("Front", "hi")]) ⟨"T", "Front", "Audio", true⟩
      (fun _ => rfl) (fun _ => rfl) (by decide) (by decide) (by decide) (by decide)
      (fun _ => rfl) [1, 2, 3, 4, 5, 6, 7] 0 initWState (by decide)).2.1
  · exact (C1_abort_conditions.2.2.2
      ⟨fun _ => some (Note.mk "T" [("Front", "hi")]), fun _ => ⟨none, "b", none⟩,
       fun _ => 0, fun _ => .saved, fun _ => false⟩
      ⟨[⟨"T", "Front", "Audio", true⟩], false, false, 0, false⟩
      (Note.mk "T" [("Front", "hi")]) ⟨"T", "Front", "Audio", true⟩
      (fun _ => rfl) (fun _ => rfl) (by decide) (by decide) (by decide) (by decide)
      (fun _ => rfl) [1, 2, 3, 4, 5, 6, 7] 0 initWState (by decide)).2.2
